import Mathlib

/-!
Verification of the Life-Cycle Impact Modeling & Attribution Engine
(`Brightway2Engine` in `backend/server.py`) against its specification.

The engine's pure computational core is shallowly embedded here:
* real quantities are modelled as rationals (`ℚ`); Python's `round(x, 6)`
  is modelled as rounding to the nearest multiple of `10⁻⁶`;
* strings are Lean `String`s, processed as their character lists;
* Python dict fields read with `dict.get(key, default)` are modelled either
  as `Option` fields (when presence/absence is distinguishable from the
  default value somewhere in the engine) or directly as the defaulted value;
* fallible code (the estimator's `material.lower().split()[0]`, which raises
  `IndexError` on an all-whitespace material) returns `Option`;
* the external Brightway2 solver is out of scope per the spec and is
  modelled as an oracle parameter where needed.
-/

set_option allowUnsafeReducibility true in
attribute [semireducible] Rat.add Rat.mul Rat.sub Rat.inv

namespace LCA

/-! ## Characters and the activity-code normalizer (`_normalize_activity_code`) -/

/-- Python `str.lower` on one character, for the ASCII label alphabet the
catalog uses: maps `'A'..'Z'` to `'a'..'z'` and fixes everything else. -/
def lowerChar (c : Char) : Char :=
  if c.toNat ≥ 65 ∧ c.toNat ≤ 90 then Char.ofNat (c.toNat + 32) else c

theorem toNat_ofNat_of_lt {n : Nat} (h : n < 55296) : (Char.ofNat n).toNat = n := by
  have hv : n.isValidChar := Or.inl h
  simp only [Char.ofNat, Char.ofNatAux, hv, dif_pos]
  rfl

theorem lowerChar_idem (c : Char) : lowerChar (lowerChar c) = lowerChar c := by
  unfold lowerChar
  by_cases h : c.toNat ≥ 65 ∧ c.toNat ≤ 90
  · have hlt : c.toNat + 32 < 55296 := by omega
    rw [if_pos h, toNat_ofNat_of_lt hlt]
    have hno : ¬ (c.toNat + 32 ≥ 65 ∧ c.toNat + 32 ≤ 90) := by omega
    rw [if_neg hno]
  · rw [if_neg h, if_neg h]

/-- Python `str.upper` on one ASCII character. -/
def upperChar (c : Char) : Char :=
  if c.toNat ≥ 97 ∧ c.toNat ≤ 122 then Char.ofNat (c.toNat - 32) else c

/-- `code.replace(",", "").replace("(", "").replace(")", "")`. -/
def stripPunct (l : List Char) : List Char :=
  l.filter fun c => !(c = ',' || c = '(' || c = ')')

/-- `code.replace(" - ", "_")`: left-to-right, non-overlapping occurrences. -/
def replaceSpDashSp : List Char → List Char
  | [] => []
  | [c] => [c]
  | [c, d] => [c, d]
  | c :: d :: e :: rest =>
    if c = ' ' ∧ d = '-' ∧ e = ' ' then '_' :: replaceSpDashSp rest
    else c :: replaceSpDashSp (d :: e :: rest)

/-- `code.replace(a, b)` for single characters `a`, `b`. -/
def mapReplace (a b : Char) (l : List Char) : List Char :=
  l.map fun c => if c = a then b else c

/-- Does the list contain two adjacent underscores (Python `"__" in code`)? -/
def hasDU : List Char → Bool
  | [] => false
  | [_] => false
  | a :: b :: rest => (a = '_' && b = '_') || hasDU (b :: rest)

/-- The result of Python's `while "__" in code: code = code.replace("__", "_")`
loop: every maximal run of underscores is collapsed to a single underscore
(the loop halves run lengths until no run of length ≥ 2 remains; its final
value is this one-pass collapse, proved as `pythonCollapseLoop_eq`). -/
def collapseUnd : List Char → List Char
  | [] => []
  | [c] => [c]
  | c :: d :: rest =>
    if c = '_' ∧ d = '_' then collapseUnd (d :: rest)
    else c :: collapseUnd (d :: rest)

/-- `code.strip("_")`. -/
def stripUnd (l : List Char) : List Char :=
  ((l.dropWhile (· = '_')).reverse.dropWhile (· = '_')).reverse

/-- The normalization pipeline of `_normalize_activity_code` on a char list:
lower-case, drop commas/parentheses, replace `" - "`, spaces and dashes by
underscores, collapse repeated underscores, strip edge underscores. -/
def normCode (l : List Char) : List Char :=
  stripUnd (collapseUnd (mapReplace '-' '_'
    (mapReplace ' ' '_' (replaceSpDashSp (stripPunct (l.map lowerChar))))))

/-- `Brightway2Engine._normalize_activity_code`: `if not name: return ""`,
then the pipeline above. -/
def normalizeActivityCode (s : String) : String :=
  if s = "" then "" else String.mk (normCode s.data)

/-! ### The Python `while`-loop and the one-pass collapse agree -/

/-- One `code.replace("__", "_")` pass (left-to-right, non-overlapping). -/
def replaceDU : List Char → List Char
  | [] => []
  | [c] => [c]
  | c :: d :: rest =>
    if c = '_' ∧ d = '_' then '_' :: replaceDU rest
    else c :: replaceDU (d :: rest)

theorem hasDU_tail {c : Char} {t : List Char} (h : hasDU (c :: t) = false) :
    hasDU t = false := by
  cases t with
  | nil => rfl
  | cons b r =>
    simp only [hasDU, Bool.or_eq_false_iff] at h
    exact h.2

theorem collapseUnd_eq_self {l : List Char} (h : hasDU l = false) : collapseUnd l = l := by
  induction l using collapseUnd.induct with
  | case1 => rfl
  | case2 c => rfl
  | case3 c d rest hcd ih =>
    exfalso
    simp only [hasDU, Bool.or_eq_false_iff, Bool.and_eq_false_iff] at h
    rcases h.1 with h1 | h2
    · exact absurd hcd.1 (by simpa using h1)
    · exact absurd hcd.2 (by simpa using h2)
  | case4 c d rest hcd ih =>
    rw [collapseUnd, if_neg hcd, ih (hasDU_tail h)]

theorem replaceDU_length_le (l : List Char) : (replaceDU l).length ≤ l.length := by
  induction l using replaceDU.induct with
  | case1 => simp [replaceDU]
  | case2 c => simp [replaceDU]
  | case3 c d rest hcd ih =>
    rw [replaceDU, if_pos hcd]
    simp only [List.length_cons]
    omega
  | case4 c d rest hcd ih =>
    rw [replaceDU, if_neg hcd]
    simp only [List.length_cons] at ih ⊢
    omega

theorem replaceDU_length_lt {l : List Char} (h : hasDU l = true) :
    (replaceDU l).length < l.length := by
  induction l using replaceDU.induct with
  | case1 => simp [hasDU] at h
  | case2 c => simp [hasDU] at h
  | case3 c d rest hcd ih =>
    rw [replaceDU, if_pos hcd]
    have := replaceDU_length_le rest
    simp only [List.length_cons]
    omega
  | case4 c d rest hcd ih =>
    rw [replaceDU, if_neg hcd]
    have hb : hasDU (d :: rest) = true := by
      simp only [hasDU, Bool.or_eq_true, Bool.and_eq_true, decide_eq_true_eq] at h
      rcases h with ⟨h1, h2⟩ | h3
      · exact absurd ⟨h1, h2⟩ hcd
      · exact h3
    have := ih hb
    simp only [List.length_cons] at this ⊢
    omega

/-- A statement-for-statement rendering of the Python loop itself. -/
def pythonCollapseLoop (l : List Char) : List Char :=
  if h : hasDU l = true then pythonCollapseLoop (replaceDU l) else l
termination_by l.length
decreasing_by exact replaceDU_length_lt h

theorem replaceDU_cons (d : Char) (rest : List Char) :
    ∃ t, replaceDU (d :: rest) = d :: t := by
  cases rest with
  | nil => exact ⟨[], rfl⟩
  | cons e r =>
    by_cases h : d = '_' ∧ e = '_'
    · refine ⟨replaceDU r, ?_⟩
      rw [replaceDU, if_pos h, h.1]
    · exact ⟨replaceDU (e :: r), by rw [replaceDU, if_neg h]⟩

theorem collapseUnd_replaceDU_aux : ∀ (n : Nat) (l : List Char), l.length ≤ n →
    collapseUnd (replaceDU l) = collapseUnd l ∧
    collapseUnd ('_' :: replaceDU l) = collapseUnd ('_' :: l) := by
  intro n
  induction n with
  | zero =>
    intro l hl
    have : l = [] := List.length_eq_zero.mp (Nat.le_zero.mp hl)
    subst this
    exact ⟨rfl, rfl⟩
  | succ n ih =>
    intro l hl
    rcases l with _ | ⟨c, _ | ⟨d, rest⟩⟩
    · exact ⟨rfl, rfl⟩
    · exact ⟨rfl, rfl⟩
    · simp only [List.length_cons] at hl
      by_cases hcd : c = '_' ∧ d = '_'
      · obtain ⟨hc, hd⟩ := hcd
        subst hc; subst hd
        have hrest : rest.length ≤ n := by omega
        have hC := (ih rest hrest).2
        constructor
        · rw [replaceDU, if_pos ⟨rfl, rfl⟩]
          rw [collapseUnd, if_pos ⟨rfl, rfl⟩]
          exact hC
        · rw [replaceDU, if_pos ⟨rfl, rfl⟩]
          rw [show collapseUnd ('_' :: '_' :: '_' :: rest) = collapseUnd ('_' :: '_' :: rest) by
            rw [collapseUnd, if_pos ⟨rfl, rfl⟩]]
          rw [show collapseUnd ('_' :: '_' :: rest) = collapseUnd ('_' :: rest) by
            rw [collapseUnd, if_pos ⟨rfl, rfl⟩]]
          rw [show collapseUnd ('_' :: '_' :: replaceDU rest) = collapseUnd ('_' :: replaceDU rest) by
            rw [collapseUnd, if_pos ⟨rfl, rfl⟩]]
          exact hC
      · have hdr : (d :: rest).length ≤ n := by simp only [List.length_cons]; omega
        obtain ⟨t, ht⟩ := replaceDU_cons d rest
        have hB : collapseUnd (replaceDU (c :: d :: rest)) = collapseUnd (c :: d :: rest) := by
          rw [replaceDU, if_neg hcd, ht]
          rw [collapseUnd, if_neg hcd]
          rw [collapseUnd, if_neg hcd]
          rw [← ht, (ih (d :: rest) hdr).1]
        refine ⟨hB, ?_⟩
        by_cases hc : c = '_'
        · subst hc
          have hd : ¬ d = '_' := fun hd => hcd ⟨rfl, hd⟩
          rw [replaceDU, if_neg hcd]
          rw [show collapseUnd ('_' :: '_' :: replaceDU (d :: rest)) =
              collapseUnd ('_' :: replaceDU (d :: rest)) by
            rw [collapseUnd, if_pos ⟨rfl, rfl⟩]]
          rw [show collapseUnd ('_' :: '_' :: d :: rest) = collapseUnd ('_' :: d :: rest) by
            rw [collapseUnd, if_pos ⟨rfl, rfl⟩]]
          exact (ih (d :: rest) hdr).2
        · rw [replaceDU, if_neg hcd]
          rw [show collapseUnd ('_' :: c :: replaceDU (d :: rest)) =
              '_' :: collapseUnd (c :: replaceDU (d :: rest)) by
            rw [collapseUnd, if_neg (fun h => hc h.2)]]
          rw [show collapseUnd ('_' :: c :: d :: rest) = '_' :: collapseUnd (c :: d :: rest) by
            rw [collapseUnd, if_neg (fun h => hc h.2)]]
          rw [show collapseUnd (c :: replaceDU (d :: rest)) =
              collapseUnd (replaceDU (c :: d :: rest)) by
            rw [replaceDU, if_neg hcd]]
          rw [hB]

/-- The Python `while "__"` loop computes exactly the one-pass run collapse:
the embedding `collapseUnd` used inside `normCode` is the loop's result. -/
theorem pythonCollapseLoop_eq (l : List Char) : pythonCollapseLoop l = collapseUnd l := by
  induction l using pythonCollapseLoop.induct with
  | case1 l hdu ih =>
    rw [pythonCollapseLoop, dif_pos hdu, ih,
      (collapseUnd_replaceDU_aux l.length l le_rfl).1]
  | case2 l hdu =>
    rw [pythonCollapseLoop, dif_neg hdu]
    rw [collapseUnd_eq_self (by simpa using hdu)]

/-! ### Shape of the normalizer's output -/

theorem collapseUnd_head (l : List Char) : (collapseUnd l).head? = l.head? := by
  induction l using collapseUnd.induct with
  | case1 => rfl
  | case2 c => rfl
  | case3 c d rest hcd ih =>
    rw [collapseUnd, if_pos hcd, ih]
    simp [hcd.1, hcd.2]
  | case4 c d rest hcd ih => rw [collapseUnd, if_neg hcd]; rfl

theorem hasDU_collapseUnd (l : List Char) : hasDU (collapseUnd l) = false := by
  induction l using collapseUnd.induct with
  | case1 => rfl
  | case2 c => rfl
  | case3 c d rest hcd ih => rw [collapseUnd, if_pos hcd]; exact ih
  | case4 c d rest hcd ih =>
    rw [collapseUnd, if_neg hcd]
    cases hX : collapseUnd (d :: rest) with
    | nil => rfl
    | cons b r =>
      have hb : b = d := by
        have hh := collapseUnd_head (d :: rest)
        rw [hX] at hh
        simp only [List.head?_cons, Option.some.injEq] at hh
        exact hh
      simp only [hasDU, Bool.or_eq_false_iff]
      constructor
      · by_cases hc : c = '_'
        · have hd : ¬ b = '_' := by
            rw [hb]
            exact fun hd => hcd ⟨hc, hd⟩
          simp [hd]
        · simp [hc]
      · rw [← hX]
        exact ih

theorem mem_collapseUnd {c : Char} {l : List Char} (h : c ∈ collapseUnd l) : c ∈ l := by
  induction l using collapseUnd.induct with
  | case1 => simpa [collapseUnd] using h
  | case2 d => simpa [collapseUnd] using h
  | case3 a d rest hcd ih =>
    rw [collapseUnd, if_pos hcd] at h
    exact List.mem_cons_of_mem _ (ih h)
  | case4 a d rest hcd ih =>
    rw [collapseUnd, if_neg hcd] at h
    rcases List.mem_cons.mp h with h1 | h2
    · exact h1 ▸ List.mem_cons_self _ _
    · exact List.mem_cons_of_mem _ (ih h2)

theorem head?_dropWhile {p : Char → Bool} {l : List Char} {c : Char}
    (h : (l.dropWhile p).head? = some c) : p c = false := by
  induction l with
  | nil => simp [List.dropWhile] at h
  | cons a t ih =>
    rw [List.dropWhile_cons] at h
    by_cases hp : p a
    · rw [if_pos hp] at h
      exact ih h
    · rw [if_neg hp] at h
      simp only [List.head?_cons, Option.some.injEq] at h
      subst h
      simpa using hp

theorem dropWhile_eq_self_of_head {p : Char → Bool} {l : List Char}
    (h : ∀ c, l.head? = some c → p c = false) : l.dropWhile p = l := by
  cases l with
  | nil => rfl
  | cons a t =>
    have := h a rfl
    simp [List.dropWhile_cons, this]

theorem stripUnd_infix_self (l : List Char) : stripUnd l <:+: l := by
  unfold stripUnd
  set w := l.dropWhile (· = '_') with hw
  set u := w.reverse.dropWhile (· = '_') with hu
  have h1 : u <:+ w.reverse := List.dropWhile_suffix _
  have h2 : u.reverse <+: w := by
    rw [← List.reverse_reverse u] at h1
    rw [← List.reverse_suffix]
    simpa using h1
  have h3 : w <:+ l := List.dropWhile_suffix _
  exact h2.isInfix.trans h3.isInfix

theorem mem_stripUnd {c : Char} {l : List Char} (h : c ∈ stripUnd l) : c ∈ l :=
  (stripUnd_infix_self l).mem h

theorem stripUnd_head {l : List Char} {c : Char}
    (h : (stripUnd l).head? = some c) : c ≠ '_' := by
  unfold stripUnd at h
  set w := l.dropWhile (· = '_') with hw
  set u := w.reverse.dropWhile (· = '_') with hu
  have h1 : u <:+ w.reverse := List.dropWhile_suffix _
  have h2 : u.reverse <+: w := by
    rw [← List.reverse_reverse u] at h1
    rw [← List.reverse_suffix]
    simpa using h1
  obtain ⟨t, ht⟩ := h2
  cases hur : u.reverse with
  | nil => rw [hur] at h; simp at h
  | cons b r =>
    rw [hur] at h
    simp only [List.head?_cons, Option.some.injEq] at h
    have hwh : w.head? = some c := by
      rw [← ht, hur]
      simp [h]
    rw [hw] at hwh
    have := head?_dropWhile hwh
    simpa using this

theorem stripUnd_getLast {l : List Char} {c : Char}
    (h : (stripUnd l).getLast? = some c) : c ≠ '_' := by
  unfold stripUnd at h
  rw [List.getLast?_reverse] at h
  have := head?_dropWhile (p := (· = '_')) h
  simpa using this

theorem stripUnd_eq_self {l : List Char}
    (hh : ∀ c, l.head? = some c → c ≠ '_')
    (hl : ∀ c, l.getLast? = some c → c ≠ '_') : stripUnd l = l := by
  unfold stripUnd
  have h1 : l.dropWhile (· = '_') = l :=
    dropWhile_eq_self_of_head fun c hc => by simpa using hh c hc
  rw [h1]
  have h2 : l.reverse.dropWhile (· = '_') = l.reverse :=
    dropWhile_eq_self_of_head fun c hc => by
      rw [List.head?_reverse] at hc
      simpa using hl c hc
  rw [h2, List.reverse_reverse]

/-! ### `hasDU` and infixes -/

theorem hasDU_iff {l : List Char} : hasDU l = true ↔ ['_', '_'] <:+: l := by
  induction l with
  | nil =>
    simp only [hasDU, Bool.false_eq_true, false_iff]
    intro h
    have := h.length_le
    simp at this
  | cons a t ih =>
    cases t with
    | nil =>
      simp only [hasDU, Bool.false_eq_true, false_iff]
      intro h
      have := h.length_le
      simp at this
    | cons b r =>
      rw [hasDU, Bool.or_eq_true, Bool.and_eq_true, List.infix_cons_iff]
      constructor
      · rintro (⟨ha, hb⟩ | h2)
        · have ha := of_decide_eq_true ha
          have hb := of_decide_eq_true hb
          subst ha; subst hb
          exact Or.inl ⟨r, rfl⟩
        · exact Or.inr (ih.mp h2)
      · rintro (h1 | h2)
        · rcases List.cons_prefix_cons.mp h1 with ⟨ha, h1'⟩
          rcases List.cons_prefix_cons.mp h1' with ⟨hb, h2'⟩
          refine Or.inl ⟨?_, ?_⟩
          · simp [← ha]
          · simp [← hb]
        · exact Or.inr (ih.mpr h2)

theorem hasDU_of_infix {l₁ l₂ : List Char} (h : l₁ <:+: l₂)
    (h2 : hasDU l₂ = false) : hasDU l₁ = false := by
  by_contra hc
  have h1 : hasDU l₁ = true := by simpa using hc
  have := hasDU_iff.mp h1
  have := hasDU_iff.mpr (this.trans h)
  rw [h2] at this
  exact Bool.false_ne_true this

/-! ### Per-stage membership and identity lemmas -/

theorem mem_stripPunct {c : Char} {l : List Char} (h : c ∈ stripPunct l) :
    c ∈ l ∧ c ≠ ',' ∧ c ≠ '(' ∧ c ≠ ')' := by
  rcases List.mem_filter.mp h with ⟨h1, h2⟩
  simp only [Bool.not_eq_true', Bool.or_eq_false_iff, decide_eq_false_iff_not] at h2
  exact ⟨h1, h2.1.1, h2.1.2, h2.2⟩

theorem stripPunct_id {l : List Char} (h : ∀ c ∈ l, c ≠ ',' ∧ c ≠ '(' ∧ c ≠ ')') :
    stripPunct l = l := by
  apply List.filter_eq_self.mpr
  intro a ha
  have := h a ha
  simp [this.1, this.2.1, this.2.2]

theorem mem_replaceSpDashSp {c : Char} {l : List Char} (h : c ∈ replaceSpDashSp l) :
    c ∈ l ∨ c = '_' := by
  induction l using replaceSpDashSp.induct with
  | case1 => simp [replaceSpDashSp] at h
  | case2 d => rw [replaceSpDashSp] at h; exact Or.inl h
  | case3 d e => rw [replaceSpDashSp] at h; exact Or.inl h
  | case4 d e f rest hdef ih =>
    rw [replaceSpDashSp, if_pos hdef] at h
    rcases List.mem_cons.mp h with h1 | h2
    · exact Or.inr h1
    · rcases ih h2 with h3 | h3
      · exact Or.inl (by simp [h3])
      · exact Or.inr h3
  | case5 d e f rest hdef ih =>
    rw [replaceSpDashSp, if_neg hdef] at h
    rcases List.mem_cons.mp h with h1 | h2
    · exact Or.inl (by simp [h1])
    · rcases ih h2 with h3 | h3
      · exact Or.inl (List.mem_cons_of_mem _ h3)
      · exact Or.inr h3

theorem replaceSpDashSp_id {l : List Char} (h : ' ' ∉ l) : replaceSpDashSp l = l := by
  induction l using replaceSpDashSp.induct with
  | case1 => rfl
  | case2 d => rfl
  | case3 d e => rfl
  | case4 d e f rest hdef ih =>
    exact absurd (by simp [hdef.1]) h
  | case5 d e f rest hdef ih =>
    rw [replaceSpDashSp, if_neg hdef, ih (fun hx => h (List.mem_cons_of_mem _ hx))]

theorem mem_mapReplace {c a b : Char} {l : List Char} (h : c ∈ mapReplace a b l) :
    c ∈ l ∨ c = b := by
  rcases List.mem_map.mp h with ⟨d, hd, hdc⟩
  by_cases hda : d = a
  · rw [if_pos hda] at hdc
    exact Or.inr hdc.symm
  · rw [if_neg hda] at hdc
    exact Or.inl (hdc ▸ hd)

theorem not_mem_mapReplace {a b : Char} (hab : a ≠ b) (l : List Char) :
    a ∉ mapReplace a b l := by
  intro h
  rcases List.mem_map.mp h with ⟨d, _, hdc⟩
  by_cases hda : d = a
  · rw [if_pos hda] at hdc
    exact hab hdc.symm
  · rw [if_neg hda] at hdc
    exact hda hdc

theorem mapReplace_id {a b : Char} {l : List Char} (h : a ∉ l) : mapReplace a b l = l := by
  unfold mapReplace
  conv_rhs => rw [← List.map_id l]
  apply List.map_congr_left
  intro d hd
  have hda : d ≠ a := fun hda => h (hda ▸ hd)
  simp [hda]

/-! ### The normalizer's output is a fixed point of every stage -/

theorem mem_normCode {c : Char} {l : List Char} (h : c ∈ normCode l) :
    c ∈ mapReplace '-' '_'
      (mapReplace ' ' '_' (replaceSpDashSp (stripPunct (l.map lowerChar)))) :=
  mem_collapseUnd (mem_stripUnd h)

theorem normCode_no_space (l : List Char) : ' ' ∉ normCode l := by
  intro h
  rcases mem_mapReplace (mem_normCode h) with h2 | h2
  · exact not_mem_mapReplace (by decide) _ h2
  · exact absurd h2 (by decide)

theorem normCode_no_dash (l : List Char) : '-' ∉ normCode l := fun h =>
  not_mem_mapReplace (by decide) _ (mem_normCode h)

theorem normCode_no_punct {l : List Char} {c : Char} (h : c ∈ normCode l) :
    c ≠ ',' ∧ c ≠ '(' ∧ c ≠ ')' := by
  by_cases hc : c = '_'
  · subst hc
    exact ⟨by decide, by decide, by decide⟩
  rcases mem_mapReplace (mem_normCode h) with h2 | h2
  swap
  · exact absurd h2 hc
  rcases mem_mapReplace h2 with h3 | h3
  swap
  · exact absurd h3 hc
  rcases mem_replaceSpDashSp h3 with h4 | h4
  swap
  · exact absurd h4 hc
  exact (mem_stripPunct h4).2

theorem normCode_lower {l : List Char} {c : Char} (h : c ∈ normCode l) :
    lowerChar c = c := by
  by_cases hc : c = '_'
  · subst hc
    decide
  rcases mem_mapReplace (mem_normCode h) with h2 | h2
  swap
  · exact absurd h2 hc
  rcases mem_mapReplace h2 with h3 | h3
  swap
  · exact absurd h3 hc
  rcases mem_replaceSpDashSp h3 with h4 | h4
  swap
  · exact absurd h4 hc
  rcases List.mem_map.mp (mem_stripPunct h4).1 with ⟨d, _, hdc⟩
  rw [← hdc]
  exact lowerChar_idem d

theorem normCode_hasDU (l : List Char) : hasDU (normCode l) = false :=
  hasDU_of_infix (stripUnd_infix_self _) (hasDU_collapseUnd _)

theorem normCode_idem (l : List Char) : normCode (normCode l) = normCode l := by
  set r := normCode l with hr
  have e1 : r.map lowerChar = r := by
    conv_rhs => rw [← List.map_id r]
    apply List.map_congr_left
    intro d hd
    exact normCode_lower hd
  have e2 : stripPunct r = r := stripPunct_id (fun d hd => normCode_no_punct hd)
  have e3 : replaceSpDashSp r = r := replaceSpDashSp_id (normCode_no_space l)
  have e4 : mapReplace ' ' '_' r = r := mapReplace_id (normCode_no_space l)
  have e5 : mapReplace '-' '_' r = r := mapReplace_id (normCode_no_dash l)
  have e6 : collapseUnd r = r := collapseUnd_eq_self (normCode_hasDU l)
  have e7 : stripUnd r = r :=
    stripUnd_eq_self (fun d hd => stripUnd_head hd) (fun d hd => stripUnd_getLast hd)
  show stripUnd (collapseUnd (mapReplace '-' '_'
    (mapReplace ' ' '_' (replaceSpDashSp (stripPunct (r.map lowerChar)))))) = r
  rw [e1, e2, e3, e4, e5, e6, e7]

theorem normalizeActivityCode_idem (s : String) :
    normalizeActivityCode (normalizeActivityCode s) = normalizeActivityCode s := by
  by_cases hs : s = ""
  · subst hs
    rfl
  · have h1 : normalizeActivityCode s = String.mk (normCode s.data) := by
      rw [normalizeActivityCode, if_neg hs]
    rw [h1]
    by_cases h2 : String.mk (normCode s.data) = ""
    · rw [normalizeActivityCode, if_pos h2, h2]
    · rw [normalizeActivityCode, if_neg h2]
      have hd : (String.mk (normCode s.data)).data = normCode s.data := rfl
      rw [hd, normCode_idem]

/-- C4: the label normalization `_normalize_activity_code` is total (it is a
Lean function, and maps `""` to `""`), idempotent on every input string, and
sends `"Weaving - Air jet"` to `"weaving_air_jet"`. -/
theorem normalize_total_idempotent :
    normalizeActivityCode "" = "" ∧
    (∀ s : String, normalizeActivityCode (normalizeActivityCode s) = normalizeActivityCode s) ∧
    normalizeActivityCode "Weaving - Air jet" = "weaving_air_jet" :=
  ⟨rfl, normalizeActivityCode_idem, by decide⟩

/-! ## Rounding -/

/-- Python `round(x, 6)`: nearest multiple of `10⁻⁶`.  (Python breaks exact
half-millionth ties to even; no value in the properties checked here sits on
such a tie, so nearest-with-half-up is used.) -/
def round6 (q : ℚ) : ℚ := (⌊q * 1000000 + 1/2⌋ : ℚ) / 1000000

/-! ## Data model

The textile input document (`input_data`) and the project record, as the
engine reads them.  Fields read with `dict.get(key, default)` whose absence is
observationally identical to the default everywhere in the engine are stored
directly (`yarns`, `fabrics`, `fibers`, transport legs, percentages); fields
whose absence matters (`material` defaults to `''` in the synthesizer but to
`'cotton'` in the estimator; `lifetime_washing_cycles` defaults to `0` in the
synthesizer but to `50` in the estimator; the `manufacturing`/`use_phase`/
`end_of_life` sub-dicts) are `Option`s. -/

inductive Industry
  | textile
  | footwear
  | construction
  | battery
deriving DecidableEq

structure FiberInput where
  material : Option String
  percentage : ℚ
deriving DecidableEq

structure YarnInput where
  percentage : ℚ
  spinning_method : Option String
  fibers : List FiberInput
deriving DecidableEq

structure FabricInput where
  percentage : ℚ
  construction_method : Option String
  coloring_method : Option String
deriving DecidableEq

structure ManufacturingInput where
  cutting_waste_percentage : ℚ
  waste_recycled_percentage : ℚ
  waste_incinerated_percentage : ℚ
  waste_landfilled_percentage : ℚ
deriving DecidableEq

structure TransportLeg where
  mode : Option String
  distance_km : ℚ
deriving DecidableEq

structure UsePhaseInput where
  includeFlag : Bool
  lifetime_washing_cycles : Option ℚ
deriving DecidableEq

structure EndOfLifeInput where
  includeFlag : Bool
  recycled_percentage : ℚ
  incinerated_percentage : ℚ
  landfill_percentage : ℚ
deriving DecidableEq

structure TextileInput where
  yarns : List YarnInput
  fabrics : List FabricInput
  manufacturing : Option ManufacturingInput
  transport_legs : List TransportLeg
  use_phase : Option UsePhaseInput
  end_of_life : Option EndOfLifeInput
deriving DecidableEq

structure LCAProject where
  industry : Industry
  scope : String
  database : String
  method : String
  product_weight_grams : ℚ
deriving DecidableEq

/-- `project.scope in ['cradle-to-grave', 'both']`. -/
def scopeIncludesGrave (scope : String) : Bool :=
  scope = "cradle-to-grave" || scope = "both"

/-- `weight_kg = project.product_weight_grams / 1000`. -/
def productWeightKg (p : LCAProject) : ℚ := p.product_weight_grams / 1000

/-- An exchange as built by `_build_*_exchanges`: `input` key pair
`(db, code)`, `amount`, `type` (named `kind` here) and `unit`. -/
structure Exchange where
  db : String
  code : String
  amount : ℚ
  kind : String
  unit : String
deriving DecidableEq

/-- `mode.lower().replace(" ", "_")` (and the analogous ad-hoc normalization
used for footwear/construction/battery type fields). -/
def lowerUnderscore (s : String) : String :=
  String.mk (mapReplace ' ' '_' (s.data.map lowerChar))

/-! ## Exchange Synthesizer (`_build_textile_exchanges`) -/

/-- Fiber loop body: fiber exchange at `fiber_weight`, defaulting an empty
normalized material code to `cotton_fiber_global`. -/
def fiberExchange (base_db : String) (yarn_weight : ℚ) (fiber : FiberInput) : Exchange :=
  { db := base_db
    code :=
      if normalizeActivityCode (fiber.material.getD "") = "" then "cotton_fiber_global"
      else normalizeActivityCode (fiber.material.getD "")
    amount := yarn_weight * (fiber.percentage / 100)
    kind := "technosphere"
    unit := "kg" }

/-- Spinning exchange at `yarn_weight`, defaulting an empty normalized
spinning code to `ring_spinning` (`spinning_method` itself defaults to
`'Ring spinning'`). -/
def spinningExchange (base_db : String) (weight_kg : ℚ) (yarn : YarnInput) : Exchange :=
  { db := base_db
    code :=
      if normalizeActivityCode (yarn.spinning_method.getD "Ring spinning") = "" then
        "ring_spinning"
      else normalizeActivityCode (yarn.spinning_method.getD "Ring spinning")
    amount := weight_kg * (yarn.percentage / 100)
    kind := "technosphere"
    unit := "kg" }

/-- Per-yarn block: the fiber exchanges, then the spinning exchange. -/
def yarnExchanges (base_db : String) (weight_kg : ℚ) (yarn : YarnInput) : List Exchange :=
  yarn.fibers.map (fiberExchange base_db (weight_kg * (yarn.percentage / 100))) ++
    [spinningExchange base_db weight_kg yarn]

/-- Per-fabric block: the construction exchange, then (when a coloring method
is present and is not the `'No dyeing/printing'` sentinel) a dyeing exchange,
both at `fabric_weight`. -/
def fabricExchanges (base_db : String) (weight_kg : ℚ) (fabric : FabricInput) : List Exchange :=
  { db := base_db
    code :=
      if normalizeActivityCode (fabric.construction_method.getD "Weaving") = "" then "weaving"
      else normalizeActivityCode (fabric.construction_method.getD "Weaving")
    amount := weight_kg * (fabric.percentage / 100)
    kind := "technosphere"
    unit := "kg" } ::
  (if fabric.coloring_method.getD "" ≠ "" ∧
      fabric.coloring_method.getD "" ≠ "No dyeing/printing" then
    [{ db := base_db
       code :=
         if normalizeActivityCode (fabric.coloring_method.getD "") = "" then "dyeing_jet"
         else normalizeActivityCode (fabric.coloring_method.getD "")
       amount := weight_kg * (fabric.percentage / 100)
       kind := "technosphere"
       unit := "kg" }]
  else [])

/-- A waste-treatment exchange against one of the fixed codes
`recycling`/`incineration`/`landfill`. -/
def wasteExchange (base_db code : String) (amount : ℚ) : Exchange :=
  { db := base_db, code := code, amount := amount, kind := "technosphere", unit := "kg" }

/-- The recycled/incinerated/landfilled triple, each emitted only when its
amount is strictly positive (this `if > 0` block appears verbatim in both the
manufacturing-waste and the end-of-life sections of the source). -/
def splitExchanges (base_db : String) (recycled incinerated landfilled : ℚ) : List Exchange :=
  (if 0 < recycled then [wasteExchange base_db "recycling" recycled] else []) ++
  (if 0 < incinerated then [wasteExchange base_db "incineration" incinerated] else []) ++
  (if 0 < landfilled then [wasteExchange base_db "landfill" landfilled] else [])

/-- Manufacturing-waste section: `waste_amount = weight_kg * cutting_waste/100`
is split by the three waste percentages when it is positive. -/
def manufacturingExchanges (base_db : String) (weight_kg : ℚ) :
    Option ManufacturingInput → List Exchange
  | none => []
  | some mfg =>
    if 0 < weight_kg * (mfg.cutting_waste_percentage / 100) then
      splitExchanges base_db
        (weight_kg * (mfg.cutting_waste_percentage / 100) * (mfg.waste_recycled_percentage / 100))
        (weight_kg * (mfg.cutting_waste_percentage / 100) *
          (mfg.waste_incinerated_percentage / 100))
        (weight_kg * (mfg.cutting_waste_percentage / 100) * (mfg.waste_landfilled_percentage / 100))
    else []

/-- Transport leg: `tonne_km = weight_kg * distance_km / 1000` against the
mode's ad-hoc lower-cased code, defaulting an empty code to `truck`. -/
def transportExchange (base_db : String) (weight_kg : ℚ) (leg : TransportLeg) : Exchange :=
  { db := base_db
    code :=
      if lowerUnderscore (leg.mode.getD "Truck") = "" then "truck"
      else lowerUnderscore (leg.mode.getD "Truck")
    amount := weight_kg * leg.distance_km / 1000
    kind := "technosphere"
    unit := "tkm" }

/-- Use-phase section (only for grave scopes, only when included): water at
`cycles * 50 / 1000` and electricity at `cycles * 0.5`. -/
def usePhaseExchanges (base_db : String) (scope : String) :
    Option UsePhaseInput → List Exchange
  | none => []
  | some use =>
    if scopeIncludesGrave scope && use.includeFlag then
      [{ db := base_db, code := "water",
         amount := use.lifetime_washing_cycles.getD 0 * 50 / 1000,
         kind := "technosphere", unit := "kg" },
       { db := base_db, code := "electricity",
         amount := use.lifetime_washing_cycles.getD 0 * (1 / 2),
         kind := "technosphere", unit := "kWh" }]
    else []

/-- End-of-life section (only for grave scopes, only when included): the same
positive-split triple at `weight_kg * percentage/100`. -/
def endOfLifeExchanges (base_db : String) (scope : String) (weight_kg : ℚ) :
    Option EndOfLifeInput → List Exchange
  | none => []
  | some eol =>
    if scopeIncludesGrave scope && eol.includeFlag then
      splitExchanges base_db
        (weight_kg * (eol.recycled_percentage / 100))
        (weight_kg * (eol.incinerated_percentage / 100))
        (weight_kg * (eol.landfill_percentage / 100))
    else []

/-- `Brightway2Engine._build_textile_exchanges`. -/
def buildTextileExchanges (input : TextileInput) (weight_kg : ℚ)
    (project : LCAProject) : List Exchange :=
  (input.yarns.map (yarnExchanges project.database weight_kg)).flatten ++
  (input.fabrics.map (fabricExchanges project.database weight_kg)).flatten ++
  manufacturingExchanges project.database weight_kg input.manufacturing ++
  input.transport_legs.map (transportExchange project.database weight_kg) ++
  usePhaseExchanges project.database project.scope input.use_phase ++
  endOfLifeExchanges project.database project.scope weight_kg input.end_of_life

/-! ## Footwear synthesizer (`_build_footwear_exchanges`) -/

structure FootwearMaterial where
  mtype : Option String
  percentage : ℚ
deriving DecidableEq

structure FootwearInput where
  upper_materials : List FootwearMaterial
  sole_materials : List FootwearMaterial
deriving DecidableEq

/-- One footwear material exchange at `weight_kg * percentage/100`; the `type`
field defaults to `leather` (upper) or `rubber` (sole) and is normalized
ad hoc; the exchange is emitted unconditionally. -/
def footwearMaterialExchange (base_db : String) (weight_kg : ℚ) (dflt : String)
    (m : FootwearMaterial) : Exchange :=
  { db := base_db
    code := lowerUnderscore (m.mtype.getD dflt)
    amount := weight_kg * (m.percentage / 100)
    kind := "technosphere"
    unit := "kg" }

/-- `Brightway2Engine._build_footwear_exchanges`. -/
def buildFootwearExchanges (input : FootwearInput) (weight_kg : ℚ)
    (project : LCAProject) : List Exchange :=
  input.upper_materials.map (footwearMaterialExchange project.database weight_kg "leather") ++
  input.sole_materials.map (footwearMaterialExchange project.database weight_kg "rubber")

/-! ## Stage Classifier (`_build_stage_mapping`, textile branch) -/

/-- `raw_materials`: one `(db, code)` key per fiber whose material normalizes
to a non-empty code (empty codes are skipped, not defaulted). -/
def stageRawMaterials (base_db : String) (yarns : List YarnInput) : List (String × String) :=
  (yarns.map (fun y => y.fibers.filterMap (fun f =>
    if normalizeActivityCode (f.material.getD "") = "" then none
    else some (base_db, normalizeActivityCode (f.material.getD ""))))).flatten

/-- `yarn_production`: one key per yarn whose spinning method (default
`'Ring spinning'`) normalizes to a non-empty code. -/
def stageYarnProduction (base_db : String) (yarns : List YarnInput) : List (String × String) :=
  yarns.filterMap (fun y =>
    if normalizeActivityCode (y.spinning_method.getD "Ring spinning") = "" then none
    else some (base_db, normalizeActivityCode (y.spinning_method.getD "Ring spinning")))

/-- `fabric_production`: one key per fabric whose construction method (default
`'Weaving'`) normalizes to a non-empty code. -/
def stageFabricProduction (base_db : String) (fabrics : List FabricInput) :
    List (String × String) :=
  fabrics.filterMap (fun fb =>
    if normalizeActivityCode (fb.construction_method.getD "Weaving") = "" then none
    else some (base_db, normalizeActivityCode (fb.construction_method.getD "Weaving")))

/-- The `dyeing_finishing` key of one fabric: present when the coloring method
is present, not the sentinel, and normalizes to a non-empty code. -/
def dyeKey (base_db : String) (fb : FabricInput) : Option (String × String) :=
  if fb.coloring_method.getD "" ≠ "" ∧
      fb.coloring_method.getD "" ≠ "No dyeing/printing" then
    if normalizeActivityCode (fb.coloring_method.getD "") = "" then none
    else some (base_db, normalizeActivityCode (fb.coloring_method.getD ""))
  else none

/-- `dyeing_finishing`: one key per fabric with a coloring method that is
present, not the sentinel, and normalizes to a non-empty code. -/
def stageDyeing (base_db : String) (fabrics : List FabricInput) : List (String × String) :=
  fabrics.filterMap (dyeKey base_db)

/-- `manufacturing`: the fixed waste codes, gated only on the split
percentages being positive (the cutting-waste amount is not consulted). -/
def stageManufacturing (base_db : String) :
    Option ManufacturingInput → List (String × String)
  | none => []
  | some mfg =>
    (if 0 < mfg.waste_recycled_percentage then [(base_db, "recycling")] else []) ++
    (if 0 < mfg.waste_incinerated_percentage then [(base_db, "incineration")] else []) ++
    (if 0 < mfg.waste_landfilled_percentage then [(base_db, "landfill")] else [])

/-- `transport`: one key per leg, the mode lower-cased (no empty-code guard,
no `truck` fallback). -/
def stageTransport (base_db : String) (legs : List TransportLeg) : List (String × String) :=
  legs.map (fun leg => (base_db, lowerUnderscore (leg.mode.getD "Truck")))

/-- `use_phase`: the fixed `water` and `electricity` keys when included. -/
def stageUsePhase (base_db : String) : Option UsePhaseInput → List (String × String)
  | none => []
  | some use =>
    if use.includeFlag then [(base_db, "water"), (base_db, "electricity")] else []

/-- `end_of_life`: the fixed waste codes, gated only on the percentages being
positive (the `include` flag is not consulted here). -/
def stageEndOfLife (base_db : String) : Option EndOfLifeInput → List (String × String)
  | none => []
  | some eol =>
    (if 0 < eol.recycled_percentage then [(base_db, "recycling")] else []) ++
    (if 0 < eol.incinerated_percentage then [(base_db, "incineration")] else []) ++
    (if 0 < eol.landfill_percentage then [(base_db, "landfill")] else [])

/-- `Brightway2Engine._build_stage_mapping`, textile branch: the stage dict in
insertion order (use/end-of-life keys only for grave scopes), with empty
stages removed at the end. -/
def buildStageMappingTextile (project : LCAProject) (input : TextileInput) :
    List (String × List (String × String)) :=
  (([("raw_materials", stageRawMaterials project.database input.yarns),
     ("yarn_production", stageYarnProduction project.database input.yarns),
     ("fabric_production", stageFabricProduction project.database input.fabrics),
     ("dyeing_finishing", stageDyeing project.database input.fabrics),
     ("manufacturing", stageManufacturing project.database input.manufacturing),
     ("transport", stageTransport project.database input.transport_legs)] ++
    (if scopeIncludesGrave project.scope then
      [("use_phase", stageUsePhase project.database input.use_phase),
       ("end_of_life", stageEndOfLife project.database input.end_of_life)]
    else [])).filter fun p => !p.2.isEmpty)

/-- All activity codes appearing in a stage mapping. -/
def stageMappingCodes (m : List (String × List (String × String))) : List String :=
  ((m.map Prod.snd).flatten).map Prod.snd

/-! ## C1: the end-to-end textile scenario -/

/-- The project of the spec's end-to-end scenario: textile, cradle-to-grave,
200 g. -/
def c1Project : LCAProject :=
  { industry := .textile, scope := "cradle-to-grave", database := "USLCI",
    method := "ReCiPe", product_weight_grams := 200 }

/-- The input document of the end-to-end scenario: one 100% yarn of 100%
cotton with ring spinning, one 100% woven jet-dyed fabric, 10% cutting waste
split 50/30/20, one 1000 km truck leg, use phase with 30 washing cycles,
end of life at 40/30/30. -/
def c1Input : TextileInput :=
  { yarns := [{ percentage := 100, spinning_method := some "Ring spinning",
                fibers := [{ material := some "Cotton fiber (Global)", percentage := 100 }] }],
    fabrics := [{ percentage := 100, construction_method := some "Weaving",
                  coloring_method := some "Dyeing - Jet" }],
    manufacturing := some { cutting_waste_percentage := 10, waste_recycled_percentage := 50,
                            waste_incinerated_percentage := 30, waste_landfilled_percentage := 20 },
    transport_legs := [{ mode := some "Truck", distance_km := 1000 }],
    use_phase := some { includeFlag := true, lifetime_washing_cycles := some 30 },
    end_of_life := some { includeFlag := true, recycled_percentage := 40,
                          incinerated_percentage := 30, landfill_percentage := 30 } }

/-- C1: on the end-to-end scenario the Exchange Synthesizer emits exactly 13
exchanges — 1 fiber, 1 spinning, 1 construction, 1 dyeing, 3
manufacturing-waste, 1 transport, 2 use-phase, 3 end-of-life, in this order —
and the Stage Classifier's mapping has exactly the 8 textile stages as keys,
each with a non-empty activity list. -/
theorem end_to_end_scenario :
    buildTextileExchanges c1Input (productWeightKg c1Project) c1Project =
      [{ db := "USLCI", code := "cotton_fiber_global", amount := 1/5,
         kind := "technosphere", unit := "kg" },
       { db := "USLCI", code := "ring_spinning", amount := 1/5,
         kind := "technosphere", unit := "kg" },
       { db := "USLCI", code := "weaving", amount := 1/5,
         kind := "technosphere", unit := "kg" },
       { db := "USLCI", code := "dyeing_jet", amount := 1/5,
         kind := "technosphere", unit := "kg" },
       { db := "USLCI", code := "recycling", amount := 1/100,
         kind := "technosphere", unit := "kg" },
       { db := "USLCI", code := "incineration", amount := 3/500,
         kind := "technosphere", unit := "kg" },
       { db := "USLCI", code := "landfill", amount := 1/250,
         kind := "technosphere", unit := "kg" },
       { db := "USLCI", code := "truck", amount := 1/5,
         kind := "technosphere", unit := "tkm" },
       { db := "USLCI", code := "water", amount := 3/2,
         kind := "technosphere", unit := "kg" },
       { db := "USLCI", code := "electricity", amount := 15,
         kind := "technosphere", unit := "kWh" },
       { db := "USLCI", code := "recycling", amount := 2/25,
         kind := "technosphere", unit := "kg" },
       { db := "USLCI", code := "incineration", amount := 3/50,
         kind := "technosphere", unit := "kg" },
       { db := "USLCI", code := "landfill", amount := 3/50,
         kind := "technosphere", unit := "kg" }] ∧
    (buildStageMappingTextile c1Project c1Input).map Prod.fst =
      ["raw_materials", "yarn_production", "fabric_production", "dyeing_finishing",
       "manufacturing", "transport", "use_phase", "end_of_life"] ∧
    (buildStageMappingTextile c1Project c1Input).all (fun p => !p.2.isEmpty) = true := by
  refine ⟨by decide, by decide, by decide⟩

/-! ## C2: zero-amount exchanges -/

/-- A textile project used by the zero-amount counterexample. -/
def c2Project : LCAProject :=
  { industry := .textile, scope := "cradle-to-gate", database := "USLCI",
    method := "ReCiPe", product_weight_grams := 1000 }

/-- One yarn with percentage 0 and no fibers: its spinning exchange gets
amount `1 * 0/100 = 0`. -/
def c2Input : TextileInput :=
  { yarns := [{ percentage := 0, spinning_method := none, fibers := [] }],
    fabrics := [], manufacturing := none, transport_legs := [],
    use_phase := none, end_of_life := none }

/-- C2 counterexample: the synthesizer emits a zero-amount exchange (the
spinning exchange of a yarn whose percentage is 0), so the output is not free
of zero-amount exchanges. -/
theorem zero_amount_exchange_cex :
    ∃ e ∈ buildTextileExchanges c2Input (productWeightKg c2Project) c2Project,
      e.amount = 0 := by decide

/-- C2 (amended): only the manufacturing-waste and end-of-life groups are
guarded against zero amounts — each of their split exchanges is emitted only
when its amount is strictly positive; fiber, spinning, construction, dyeing,
transport, use-phase and footwear exchanges are emitted unconditionally and
can carry amount 0. -/
theorem waste_eol_exchanges_positive (base_db : String) (weight_kg : ℚ)
    (scope : String) (mfg : Option ManufacturingInput) (eol : Option EndOfLifeInput) :
    (∀ e ∈ manufacturingExchanges base_db weight_kg mfg, 0 < e.amount) ∧
    (∀ e ∈ endOfLifeExchanges base_db scope weight_kg eol, 0 < e.amount) := by
  have hsplit : ∀ (r i l : ℚ) (e : Exchange),
      e ∈ splitExchanges base_db r i l → 0 < e.amount := by
    intro r i l e he
    unfold splitExchanges at he
    rcases List.mem_append.mp he with h12 | h3
    · rcases List.mem_append.mp h12 with h1 | h2
      · split at h1
        · next hr => rw [List.mem_singleton.mp h1]; exact hr
        · simp at h1
      · split at h2
        · next hi => rw [List.mem_singleton.mp h2]; exact hi
        · simp at h2
    · split at h3
      · next hl => rw [List.mem_singleton.mp h3]; exact hl
      · simp at h3
  constructor
  · intro e he
    cases mfg with
    | none => simp [manufacturingExchanges] at he
    | some m =>
      rw [manufacturingExchanges] at he
      split at he
      · exact hsplit _ _ _ _ he
      · simp at he
  · intro e he
    cases eol with
    | none => simp [endOfLifeExchanges] at he
    | some m =>
      rw [endOfLifeExchanges] at he
      split at he
      · exact hsplit _ _ _ _ he
      · simp at he

/-- Witness for `waste_eol_exchanges_positive` at a concrete input: the
recycling split of 10% cutting waste on 1 kg (50/30/20) is the positive
exchange `recycling 1/20`. -/
theorem waste_eol_exchanges_positive_witness :
    (0 : ℚ) < (wasteExchange "USLCI" "recycling" (1/20)).amount :=
  (waste_eol_exchanges_positive "USLCI" 1 "both"
      (some { cutting_waste_percentage := 10, waste_recycled_percentage := 50,
              waste_incinerated_percentage := 30, waste_landfilled_percentage := 20 })
      none).1 _ (by decide)

/-! ## C3: classifier vs synthesizer -/

/-- Project for the classifier/synthesizer divergence counterexample. -/
def c3Project : LCAProject :=
  { industry := .textile, scope := "cradle-to-gate", database := "USLCI",
    method := "ReCiPe", product_weight_grams := 1000 }

/-- One yarn whose single fiber has an empty material string: the synthesizer
defaults the exchange code to `cotton_fiber_global`, the classifier skips it. -/
def c3Input : TextileInput :=
  { yarns := [{ percentage := 100, spinning_method := some "Ring spinning",
                fibers := [{ material := some "", percentage := 100 }] }],
    fabrics := [], manufacturing := none, transport_legs := [],
    use_phase := none, end_of_life := none }

/-- C3 counterexample: the classifier does not reproduce the synthesizer's
defaulting — with an empty fiber material the synthesized exchange carries
`cotton_fiber_global`, but that code appears in no stage's activity list. -/
theorem classifier_synthesizer_divergence_cex :
    "cotton_fiber_global" ∈
      (buildTextileExchanges c3Input (productWeightKg c3Project) c3Project).map Exchange.code ∧
    "cotton_fiber_global" ∉
      stageMappingCodes (buildStageMappingTextile c3Project c3Input) := by
  refine ⟨by decide, by decide⟩

/-- The inputs on which the classifier's guards (skip empty codes, test only
percentages) coincide with the synthesizer's guards (default empty codes,
test amounts): every spinning/fiber/construction code normalizes non-empty,
a coloring method is absent, the sentinel, or normalizes non-empty, every
transport mode lower-cases non-empty, positive waste splits come with a
positive cutting-waste percentage, and positive end-of-life splits come with
the include flag set. -/
def wellFormedTextile (input : TextileInput) : Bool :=
  input.yarns.all (fun y =>
    !(normalizeActivityCode (y.spinning_method.getD "Ring spinning") == "") &&
    y.fibers.all (fun f => !(normalizeActivityCode (f.material.getD "") == ""))) &&
  input.fabrics.all (fun fb =>
    !(normalizeActivityCode (fb.construction_method.getD "Weaving") == "") &&
    (fb.coloring_method.getD "" == "" || fb.coloring_method.getD "" == "No dyeing/printing" ||
     !(normalizeActivityCode (fb.coloring_method.getD "") == ""))) &&
  input.transport_legs.all (fun leg => !(lowerUnderscore (leg.mode.getD "Truck") == "")) &&
  (match input.manufacturing with
   | none => true
   | some mfg =>
     decide (0 < mfg.cutting_waste_percentage) ||
     (decide (mfg.waste_recycled_percentage ≤ 0) &&
      decide (mfg.waste_incinerated_percentage ≤ 0) &&
      decide (mfg.waste_landfilled_percentage ≤ 0))) &&
  (match input.end_of_life with
   | none => true
   | some eol =>
     eol.includeFlag ||
     (decide (eol.recycled_percentage ≤ 0) && decide (eol.incinerated_percentage ≤ 0) &&
      decide (eol.landfill_percentage ≤ 0)))

theorem filterMap_eq_map_of_some {α β : Type} (l : List α) (f : α → Option β) (g : α → β)
    (h : ∀ x ∈ l, f x = some (g x)) : l.filterMap f = l.map g := by
  induction l with
  | nil => rfl
  | cons a t ih =>
    rw [List.filterMap_cons, h a (List.mem_cons_self a t), List.map_cons,
      ih (fun x hx => h x (List.mem_cons_of_mem a hx))]

theorem pos_mul_pct {a p : ℚ} (ha : 0 < a) : 0 < a * (p / 100) ↔ 0 < p := by
  constructor
  · intro h
    by_contra hp
    push_neg at hp
    nlinarith
  · intro h
    have h100 : 0 < p / 100 := by linarith
    exact mul_pos ha h100

theorem split_code_eq (base_db code : String) {wa p : ℚ} (hwa : 0 < wa) :
    ((if 0 < wa * (p / 100) then [wasteExchange base_db code (wa * (p / 100))] else []).map
        Exchange.code) =
      (if 0 < p then [(base_db, code)] else []).map Prod.snd := by
  by_cases hp : 0 < p
  · rw [if_pos ((pos_mul_pct hwa).mpr hp), if_pos hp]
    rfl
  · rw [if_neg (fun hc => hp ((pos_mul_pct hwa).mp hc)), if_neg hp]
    rfl

theorem waste_codes_match (base_db : String) {w : ℚ} (hw : 0 < w)
    (mfg : Option ManufacturingInput)
    (hwf : match mfg with
      | none => True
      | some m => 0 < m.cutting_waste_percentage ∨
          (m.waste_recycled_percentage ≤ 0 ∧ m.waste_incinerated_percentage ≤ 0 ∧
           m.waste_landfilled_percentage ≤ 0)) :
    (manufacturingExchanges base_db w mfg).map Exchange.code =
      (stageManufacturing base_db mfg).map Prod.snd := by
  cases mfg with
  | none => rfl
  | some m =>
    rw [manufacturingExchanges, stageManufacturing]
    rcases hwf with hcut | ⟨hr, hi, hl⟩
    · have hwa : 0 < w * (m.cutting_waste_percentage / 100) := (pos_mul_pct hw).mpr hcut
      rw [if_pos hwa]
      unfold splitExchanges
      simp only [List.map_append]
      rw [split_code_eq base_db "recycling" hwa, split_code_eq base_db "incineration" hwa,
        split_code_eq base_db "landfill" hwa]
    · have hnr : ¬ 0 < m.waste_recycled_percentage := not_lt.mpr hr
      have hni : ¬ 0 < m.waste_incinerated_percentage := not_lt.mpr hi
      have hnl : ¬ 0 < m.waste_landfilled_percentage := not_lt.mpr hl
      rw [if_neg hnr, if_neg hni, if_neg hnl]
      by_cases hwa : 0 < w * (m.cutting_waste_percentage / 100)
      · rw [if_pos hwa]
        unfold splitExchanges
        rw [if_neg (fun hc => hnr ((pos_mul_pct hwa).mp hc)),
          if_neg (fun hc => hni ((pos_mul_pct hwa).mp hc)),
          if_neg (fun hc => hnl ((pos_mul_pct hwa).mp hc))]
        rfl
      · rw [if_neg hwa]
        rfl

theorem eol_codes_match (base_db scope : String) {w : ℚ} (hw : 0 < w)
    (eol : Option EndOfLifeInput)
    (hwf : match eol with
      | none => True
      | some e => e.includeFlag = true ∨
          (e.recycled_percentage ≤ 0 ∧ e.incinerated_percentage ≤ 0 ∧
           e.landfill_percentage ≤ 0)) :
    (endOfLifeExchanges base_db scope w eol).map Exchange.code =
      (if scopeIncludesGrave scope then (stageEndOfLife base_db eol).map Prod.snd else []) := by
  cases eol with
  | none =>
    cases hg : scopeIncludesGrave scope <;> simp [endOfLifeExchanges, stageEndOfLife]
  | some e =>
    rw [endOfLifeExchanges, stageEndOfLife]
    cases hg : scopeIncludesGrave scope with
    | false => simp [hg]
    | true =>
      cases hin : e.includeFlag with
      | true =>
        simp only [hg, hin, Bool.and_self, if_true, if_pos]
        unfold splitExchanges
        simp only [List.map_append]
        rw [split_code_eq base_db "recycling" hw, split_code_eq base_db "incineration" hw,
          split_code_eq base_db "landfill" hw]
      | false =>
        rcases hwf with hinc | ⟨hr, hi, hl⟩
        · rw [hinc] at hin
          exact absurd hin (by simp)
        · simp only [hg, hin, Bool.and_false, Bool.false_eq_true, if_false, if_true,
            List.map_nil]
          rw [if_neg (not_lt.mpr hr), if_neg (not_lt.mpr hi), if_neg (not_lt.mpr hl)]
          rfl

theorem transport_codes_match (base_db : String) (w : ℚ) (legs : List TransportLeg)
    (hwf : ∀ leg ∈ legs, lowerUnderscore (leg.mode.getD "Truck") ≠ "") :
    (legs.map (transportExchange base_db w)).map Exchange.code =
      (stageTransport base_db legs).map Prod.snd := by
  unfold stageTransport
  rw [List.map_map, List.map_map]
  apply List.map_congr_left
  intro leg hleg
  show (transportExchange base_db w leg).code = lowerUnderscore (leg.mode.getD "Truck")
  simp only [transportExchange]
  rw [if_neg (hwf leg hleg)]

theorem use_codes_match (base_db scope : String) (use : Option UsePhaseInput) :
    (usePhaseExchanges base_db scope use).map Exchange.code =
      (if scopeIncludesGrave scope then (stageUsePhase base_db use).map Prod.snd else []) := by
  cases use with
  | none => cases hg : scopeIncludesGrave scope <;> simp [usePhaseExchanges, stageUsePhase]
  | some u =>
    rw [usePhaseExchanges, stageUsePhase]
    cases hg : scopeIncludesGrave scope <;> cases hin : u.includeFlag <;>
      simp [hg, hin]

theorem yarn_codes_iff (base_db : String) (w : ℚ) (yarns : List YarnInput) (c : String)
    (hwf : ∀ y ∈ yarns,
      normalizeActivityCode (y.spinning_method.getD "Ring spinning") ≠ "" ∧
      ∀ f ∈ y.fibers, normalizeActivityCode (f.material.getD "") ≠ "") :
    (c ∈ ((yarns.map (yarnExchanges base_db w)).flatten).map Exchange.code ↔
      c ∈ (stageRawMaterials base_db yarns).map Prod.snd ∨
      c ∈ (stageYarnProduction base_db yarns).map Prod.snd) := by
  induction yarns with
  | nil => simp [stageRawMaterials, stageYarnProduction]
  | cons y t ih =>
    obtain ⟨hspin, hfib⟩ := hwf y (List.mem_cons_self y t)
    have ih' := ih (fun y' hy' => hwf y' (List.mem_cons_of_mem y hy'))
    have fibEq : (y.fibers.map (fiberExchange base_db (w * (y.percentage / 100)))).map
        Exchange.code = y.fibers.map (fun f => normalizeActivityCode (f.material.getD "")) := by
      rw [List.map_map]
      apply List.map_congr_left
      intro f hf
      show (fiberExchange base_db (w * (y.percentage / 100)) f).code = _
      simp only [fiberExchange]
      rw [if_neg (hfib f hf)]
    have spinEq : (spinningExchange base_db w y).code =
        normalizeActivityCode (y.spinning_method.getD "Ring spinning") := by
      simp only [spinningExchange]
      rw [if_neg hspin]
    have rawEq : (y.fibers.filterMap (fun f =>
        if normalizeActivityCode (f.material.getD "") = "" then none
        else some (base_db, normalizeActivityCode (f.material.getD "")))) =
        y.fibers.map (fun f => (base_db, normalizeActivityCode (f.material.getD ""))) :=
      filterMap_eq_map_of_some _ _ _ (fun f hf => if_neg (hfib f hf))
    have spinStep : (if normalizeActivityCode (y.spinning_method.getD "Ring spinning") = ""
        then none
        else some (base_db, normalizeActivityCode (y.spinning_method.getD "Ring spinning"))) =
        some (base_db, normalizeActivityCode (y.spinning_method.getD "Ring spinning")) :=
      if_neg hspin
    rw [stageRawMaterials, stageYarnProduction] at *
    simp only [List.map_cons, List.flatten_cons, List.map_append, List.mem_append,
      List.filterMap_cons, spinStep, yarnExchanges, rawEq, fibEq, spinEq] at *
    simp only [List.map_append, List.mem_append, List.map_map, List.map_cons,
      List.mem_cons, List.mem_singleton]
    constructor
    · rintro ((h1 | h2) | h3)
      · refine Or.inl (Or.inl ?_)
        rcases List.mem_map.mp h1 with ⟨f, hf, hc⟩
        exact List.mem_map.mpr ⟨f, hf, hc⟩
      · rcases h2 with h2 | h2
        · exact Or.inr (Or.inl h2)
        · exact absurd h2 (List.not_mem_nil c)
      · rcases ih'.mp h3 with h4 | h4
        · exact Or.inl (Or.inr h4)
        · exact Or.inr (Or.inr h4)
    · rintro ((h1 | h2) | h3)
      · refine Or.inl (Or.inl ?_)
        rcases List.mem_map.mp h1 with ⟨f, hf, hc⟩
        exact List.mem_map.mpr ⟨f, hf, hc⟩
      · exact Or.inr (ih'.mpr (Or.inl h2))
      · rcases h3 with h3 | h3
        · exact Or.inl (Or.inr (Or.inl h3))
        · exact Or.inr (ih'.mpr (Or.inr h3))

theorem fabricExchanges_codes (base_db : String) (w : ℚ) (fb : FabricInput)
    (hcon : normalizeActivityCode (fb.construction_method.getD "Weaving") ≠ "")
    (hcol : fb.coloring_method.getD "" = "" ∨ fb.coloring_method.getD "" = "No dyeing/printing" ∨
      normalizeActivityCode (fb.coloring_method.getD "") ≠ "") :
    (fabricExchanges base_db w fb).map Exchange.code =
      normalizeActivityCode (fb.construction_method.getD "Weaving") ::
        ((dyeKey base_db fb).toList.map Prod.snd) := by
  rw [fabricExchanges, dyeKey]
  by_cases hcond : fb.coloring_method.getD "" ≠ "" ∧
      fb.coloring_method.getD "" ≠ "No dyeing/printing"
  · have hne : normalizeActivityCode (fb.coloring_method.getD "") ≠ "" := by
      rcases hcol with h | h | h
      · exact absurd h hcond.1
      · exact absurd h hcond.2
      · exact h
    rw [if_pos hcond, if_pos hcond, if_neg hne]
    simp [hne, hcon]
  · rw [if_neg hcond, if_neg hcond]
    simp [hcon]

theorem fabric_codes_iff (base_db : String) (w : ℚ) (fabrics : List FabricInput) (c : String)
    (hwf : ∀ fb ∈ fabrics,
      normalizeActivityCode (fb.construction_method.getD "Weaving") ≠ "" ∧
      (fb.coloring_method.getD "" = "" ∨ fb.coloring_method.getD "" = "No dyeing/printing" ∨
       normalizeActivityCode (fb.coloring_method.getD "") ≠ "")) :
    (c ∈ ((fabrics.map (fabricExchanges base_db w)).flatten).map Exchange.code ↔
      c ∈ (stageFabricProduction base_db fabrics).map Prod.snd ∨
      c ∈ (stageDyeing base_db fabrics).map Prod.snd) := by
  induction fabrics with
  | nil => simp [stageFabricProduction, stageDyeing]
  | cons fb t ih =>
    obtain ⟨hcon, hcol⟩ := hwf fb (List.mem_cons_self fb t)
    have ih' := ih (fun x hx => hwf x (List.mem_cons_of_mem fb hx))
    have conStep : (if normalizeActivityCode (fb.construction_method.getD "Weaving") = ""
        then none
        else some (base_db, normalizeActivityCode (fb.construction_method.getD "Weaving"))) =
        some (base_db, normalizeActivityCode (fb.construction_method.getD "Weaving")) :=
      if_neg hcon
    rw [stageFabricProduction, stageDyeing] at *
    simp only [List.map_cons, List.flatten_cons, List.map_append, List.mem_append,
      List.filterMap_cons, conStep, fabricExchanges_codes base_db w fb hcon hcol] at *
    cases hk : dyeKey base_db fb with
    | none =>
      simp only [hk, Option.toList_none, List.map_nil, List.map_cons, List.mem_cons,
        List.not_mem_nil, or_false] at *
      tauto
    | some q =>
      simp only [hk, Option.toList_some, List.map_cons, List.map_nil, List.mem_cons,
        List.not_mem_nil, or_false] at *
      tauto

theorem stageMappingCodes_nil : stageMappingCodes [] = [] := rfl

theorem stageMappingCodes_cons (p : String × List (String × String))
    (t : List (String × List (String × String))) :
    stageMappingCodes (p :: t) = p.2.map Prod.snd ++ stageMappingCodes t := by
  simp [stageMappingCodes]

theorem stageMappingCodes_append (m1 m2 : List (String × List (String × String))) :
    stageMappingCodes (m1 ++ m2) = stageMappingCodes m1 ++ stageMappingCodes m2 := by
  simp [stageMappingCodes]

theorem mem_stageMappingCodes_filter (m : List (String × List (String × String)))
    (c : String) :
    (c ∈ stageMappingCodes (m.filter fun p => !p.2.isEmpty) ↔ c ∈ stageMappingCodes m) := by
  induction m with
  | nil => simp
  | cons p t ih =>
    rw [List.filter_cons]
    by_cases hp : p.2.isEmpty
    · have hnil : p.2 = [] := by simpa [List.isEmpty_iff] using hp
      rw [if_neg (by simp [hp]), stageMappingCodes_cons, hnil]
      simpa using ih
    · rw [if_pos (by simp [hp]), stageMappingCodes_cons, stageMappingCodes_cons]
      simp only [List.mem_append, ih]

/-- C3 (amended): the Stage Classifier does not reuse the synthesizer's
defaulting — it skips empty normalized codes, ignores the cutting-waste
amount and the end-of-life include flag.  On well-formed inputs
(`wellFormedTextile`: all codes normalize non-empty, positive waste splits
only with positive cutting waste, positive end-of-life splits only with the
include flag) and positive weight, every activity code appearing in a
synthesized exchange appears in some stage's activity list and vice versa. -/
theorem classifier_matches_synthesizer (project : LCAProject) (input : TextileInput)
    (weight_kg : ℚ) (hw : 0 < weight_kg) (hwf : wellFormedTextile input = true) :
    ∀ c : String,
      (c ∈ (buildTextileExchanges input weight_kg project).map Exchange.code ↔
       c ∈ stageMappingCodes (buildStageMappingTextile project input)) := by
  intro c
  rw [wellFormedTextile] at hwf
  simp only [Bool.and_eq_true, List.all_eq_true, Bool.not_eq_true', beq_eq_false_iff_ne,
    Bool.or_eq_true, decide_eq_true_eq, beq_iff_eq] at hwf
  obtain ⟨⟨⟨⟨hyarns, hfabrics⟩, hlegs⟩, hmfg⟩, heol⟩ := hwf
  have hyarns' : ∀ y ∈ input.yarns,
      normalizeActivityCode (y.spinning_method.getD "Ring spinning") ≠ "" ∧
      ∀ f ∈ y.fibers, normalizeActivityCode (f.material.getD "") ≠ "" := hyarns
  have hfabrics' : ∀ fb ∈ input.fabrics,
      normalizeActivityCode (fb.construction_method.getD "Weaving") ≠ "" ∧
      (fb.coloring_method.getD "" = "" ∨ fb.coloring_method.getD "" = "No dyeing/printing" ∨
       normalizeActivityCode (fb.coloring_method.getD "") ≠ "") := fun fb hfb =>
    ⟨(hfabrics fb hfb).1, by have := (hfabrics fb hfb).2; tauto⟩
  have hmfgP : match input.manufacturing with
      | none => True
      | some m => 0 < m.cutting_waste_percentage ∨
          (m.waste_recycled_percentage ≤ 0 ∧ m.waste_incinerated_percentage ≤ 0 ∧
           m.waste_landfilled_percentage ≤ 0) := by
    cases hm : input.manufacturing with
    | none => trivial
    | some m =>
      rw [hm] at hmfg
      simp only [Bool.or_eq_true, Bool.and_eq_true, decide_eq_true_eq] at hmfg
      tauto
  have heolP : match input.end_of_life with
      | none => True
      | some e => e.includeFlag = true ∨
          (e.recycled_percentage ≤ 0 ∧ e.incinerated_percentage ≤ 0 ∧
           e.landfill_percentage ≤ 0) := by
    cases he : input.end_of_life with
    | none => trivial
    | some e =>
      rw [he] at heol
      simp only [Bool.or_eq_true, Bool.and_eq_true, decide_eq_true_eq] at heol
      tauto
  rw [buildTextileExchanges, buildStageMappingTextile, mem_stageMappingCodes_filter]
  simp only [List.map_append, List.mem_append]
  rw [waste_codes_match project.database hw input.manufacturing hmfgP,
    transport_codes_match project.database weight_kg input.transport_legs
      (fun leg hleg => hlegs leg hleg),
    use_codes_match project.database project.scope input.use_phase,
    eol_codes_match project.database project.scope hw input.end_of_life heolP,
    stageMappingCodes_append]
  rw [yarn_codes_iff project.database weight_kg input.yarns c hyarns',
    fabric_codes_iff project.database weight_kg input.fabrics c hfabrics']
  cases hg : scopeIncludesGrave project.scope with
  | false =>
    simp only [stageMappingCodes_cons, stageMappingCodes_nil, if_false, Bool.false_eq_true,
      List.append_nil, List.mem_append, List.not_mem_nil, or_false]
    tauto
  | true =>
    simp only [stageMappingCodes_cons, stageMappingCodes_nil, if_true,
      List.append_nil, List.mem_append, List.not_mem_nil, or_false]
    tauto

/-- Witness for `classifier_matches_synthesizer` at the end-to-end scenario
input: the cotton fiber code appears on both sides. -/
theorem classifier_matches_synthesizer_witness :
    ("cotton_fiber_global" ∈
        (buildTextileExchanges c1Input (productWeightKg c1Project) c1Project).map
          Exchange.code ↔
      "cotton_fiber_global" ∈
        stageMappingCodes (buildStageMappingTextile c1Project c1Input)) :=
  classifier_matches_synthesizer c1Project c1Input (productWeightKg c1Project)
    (by decide) (by decide) "cotton_fiber_global"

/-! ## Deterministic Estimator (`_estimate_impact`) -/

/-- The static material → kg CO2e/kg table (`emission_factors`). -/
def emissionFactors : List (String × ℚ) :=
  [("cotton", 59/10), ("polyester", 19/2), ("polyester_recycled", 21/10), ("wool", 28),
   ("viscose", 8), ("lyocell", 7/2), ("modal", 4), ("nylon", 12), ("elastane", 15),
   ("acrylic", 11), ("linen", 3), ("hemp", 5/2), ("silk", 100), ("leather", 17),
   ("rubber", 3), ("concrete", 1/10), ("steel", 2), ("aluminum", 8), ("lithium", 15),
   ("cobalt", 30), ("graphite", 3)]

/-- `emission_factors.get(material, 5.0)`. -/
def emissionFactor (material : String) : ℚ := (emissionFactors.lookup material).getD 5

/-- The static per-category multipliers (`category_multipliers`). -/
def categoryMultipliers : List (String × ℚ) :=
  [("climate_change", 1), ("ozone_depletion", 1/1000000),
   ("terrestrial_acidification", 1/100), ("acidification", 1/100),
   ("freshwater_eutrophication", 1/1000), ("marine_eutrophication", 5/1000),
   ("human_toxicity", 1/10), ("human_toxicity_cancer", 1/100000),
   ("human_toxicity_non_cancer", 1/10000), ("photochemical_oxidant_formation", 5/1000),
   ("photochemical_ozone_formation", 5/1000), ("particulate_matter", 1/1000),
   ("particulate_matter_formation", 1/1000), ("terrestrial_ecotoxicity", 1/100),
   ("freshwater_ecotoxicity", 5/100), ("ecotoxicity_freshwater", 5/100),
   ("marine_ecotoxicity", 3/100), ("ionising_radiation", 1/10),
   ("agricultural_land_occupation", 5), ("urban_land_occupation", 1/2),
   ("natural_land_transformation", 1/100), ("land_use", 10), ("water_depletion", 50),
   ("water_use", 50), ("metal_depletion", 1/10), ("resource_use_minerals", 1/10000),
   ("fossil_depletion", 2), ("resource_use_fossils", 20),
   ("eutrophication_terrestrial", 2/100), ("eutrophication_freshwater", 1/1000),
   ("eutrophication_marine", 5/1000)]

/-- `category_multipliers.get(category, 1.0)`. -/
def categoryMultiplier (category : String) : ℚ := (categoryMultipliers.lookup category).getD 1

/-- Python `s.split()[0]`: the first maximal run of non-whitespace characters;
`none` models the `IndexError` raised on an empty or all-whitespace string. -/
def firstWord (s : String) : Option String :=
  match s.data.dropWhile (fun c => c.isWhitespace) with
  | [] => none
  | l => some (String.mk (l.takeWhile (fun c => !c.isWhitespace)))

/-- `s.lower()` as used by the estimator's material keying. -/
def strLower (s : String) : String := String.mk (s.data.map lowerChar)

/-- One fiber's term of the estimator's composition walk: single-item
percentage defaulting, `material.lower().split()[0]` keying (with its
possible `IndexError`), and the fiber's `has_valid_input` contribution. -/
def fiberTerm (weight_kg yarn_pct : ℚ) (numFibers : Nat) (fiber : FiberInput) :
    Option (ℚ × Bool) :=
  match firstWord (strLower (fiber.material.getD "cotton")) with
  | none => none
  | some w =>
    some (weight_kg * yarn_pct *
        (if fiber.percentage / 100 = 0 ∧ numFibers = 1 then 1 else fiber.percentage / 100) *
        emissionFactor w,
      decide (0 < (if fiber.percentage / 100 = 0 ∧ numFibers = 1 then 1
        else fiber.percentage / 100)))

/-- Accumulation of `(total_ef, has_valid_input)`, propagating a raised
`IndexError`. -/
def accTerm : Option (ℚ × Bool) → Option (ℚ × Bool) → Option (ℚ × Bool)
  | some (a, va), some (b, vb) => some (a + b, va || vb)
  | _, _ => none

def sumTerms (l : List (Option (ℚ × Bool))) : Option (ℚ × Bool) :=
  l.foldl accTerm (some (0, false))

/-- One yarn's term: single-item percentage defaulting, then either the fiber
walk or (no fibers) the flat cotton default `weight * yarn_pct * 5.9`. -/
def yarnTerm (weight_kg : ℚ) (numYarns : Nat) (yarn : YarnInput) : Option (ℚ × Bool) :=
  match yarn.fibers with
  | [] =>
    some (weight_kg *
        (if yarn.percentage / 100 = 0 ∧ numYarns = 1 then 1 else yarn.percentage / 100) *
        (59/10),
      decide (0 < (if yarn.percentage / 100 = 0 ∧ numYarns = 1 then 1
        else yarn.percentage / 100)))
  | fibers =>
    sumTerms (fibers.map (fiberTerm weight_kg
      (if yarn.percentage / 100 = 0 ∧ numYarns = 1 then 1 else yarn.percentage / 100)
      fibers.length))

/-- `Brightway2Engine._estimate_impact`: the composition-weighted emission
factor (textile only), the cotton-default fallback when nothing valid was
found or the total is zero, the fixed `1.5 * 1.1` processing/transport
overheads and the category multiplier, the use-phase addition for grave
scopes, rounded to 6 decimals.  `none` models the `IndexError` on an
all-whitespace material. -/
def estimateImpact (category : String) (input : TextileInput) (project : LCAProject) :
    Option ℚ :=
  match (if project.industry = Industry.textile then
      sumTerms (input.yarns.map
        (yarnTerm (project.product_weight_grams / 1000) input.yarns.length))
    else some (0, false)) with
  | none => none
  | some (total_ef0, has_valid) =>
    some (round6
      ((if has_valid = false ∨ total_ef0 = 0 then
          (project.product_weight_grams / 1000) * (59/10)
        else total_ef0) * (3/2) * (11/10) * categoryMultiplier category +
        (if scopeIncludesGrave project.scope then
          match input.use_phase with
          | none => 0
          | some u =>
            if u.includeFlag then
              u.lifetime_washing_cycles.getD 50 * (1/2) * categoryMultiplier category
            else 0
        else 0)))

/-- Static stage fractions (`base_contributions`) per industry, with
use-phase/end-of-life fractions appended for grave scopes. -/
def stageFractions (industry : Industry) (scope : String) : List (String × ℚ) :=
  ((match industry with
   | .textile =>
     [("raw_materials", 35/100), ("yarn_production", 10/100), ("fabric_production", 15/100),
      ("dyeing_finishing", 15/100), ("manufacturing", 5/100), ("transport", 5/100)]
   | .footwear =>
     [("raw_materials", 40/100), ("component_production", 20/100), ("assembly", 10/100),
      ("transport", 10/100)]
   | .construction =>
     [("raw_materials", 50/100), ("processing", 20/100), ("transport", 15/100),
      ("installation", 10/100)]
   | .battery =>
     [("raw_materials", 45/100), ("cell_production", 25/100), ("pack_assembly", 10/100),
      ("transport", 5/100)] : List (String × ℚ))) ++
  (if scopeIncludesGrave scope then [("use_phase", 10/100), ("end_of_life", 5/100)] else [])

/-- `Brightway2Engine._estimate_contributions`: every stage fraction is
normalized by the fractions' sum, applied to the estimated total, and rounded
to 6 decimals. -/
def estimateContributions (category : String) (input : TextileInput)
    (project : LCAProject) : Option (List (String × ℚ)) :=
  (estimateImpact category input project).map fun total =>
    (stageFractions project.industry project.scope).map fun p =>
      (p.1, round6 (p.2 /
        ((stageFractions project.industry project.scope).map Prod.snd).sum * total))

/-! ## C5/C6/C7: estimator properties -/

/-- Project of the spec's estimator check: textile, cradle-to-gate, 250 g. -/
def c5Project : LCAProject :=
  { industry := .textile, scope := "cradle-to-gate", database := "USLCI",
    method := "ReCiPe", product_weight_grams := 250 }

/-- A single 100% yarn with a single 100% `"Cotton fiber (Global)"` fiber. -/
def c5Input : TextileInput :=
  { yarns := [{ percentage := 100, spinning_method := some "Ring spinning",
                fibers := [{ material := some "Cotton fiber (Global)", percentage := 100 }] }],
    fabrics := [], manufacturing := none, transport_legs := [], use_phase := none,
    end_of_life := none }

/-- C5: on the single-yarn single-cotton-fiber 250 g cradle-to-gate input
the estimator returns exactly `round(0.25 * 5.9 * 1.5 * 1.1 * 1.0, 6) =
2.43375` for `climate_change` (`1947/800 = 243375/100000`). -/
theorem estimator_cotton_value :
    estimateImpact "climate_change" c5Input c5Project = some (243375/100000) := by decide

/-- A single yarn at percentage 0 holding a single fiber of `material` at
percentage 0. -/
def singletonZeroInput (material : String) : TextileInput :=
  { yarns := [{ percentage := 0, spinning_method := none,
                fibers := [{ material := some material, percentage := 0 }] }],
    fabrics := [], manufacturing := none, transport_legs := [], use_phase := none,
    end_of_life := none }

/-- The same composition with both percentages written as 100. -/
def singletonFullInput (material : String) : TextileInput :=
  { yarns := [{ percentage := 100, spinning_method := none,
                fibers := [{ material := some material, percentage := 100 }] }],
    fabrics := [], manufacturing := none, transport_legs := [], use_phase := none,
    end_of_life := none }

/-- C6: single-item defaulting — a 0%-yarn with a single 0%-fiber is
estimated exactly like the explicit 100/100 input, for every category,
material, scope and weight; concretely, for wool at 1 kg the value is 46.2,
which is not the flat cotton default 9.735 the estimate would fall to
without the defaulting. -/
theorem single_item_defaulting :
    (∀ (category material scope db method : String) (w : ℚ),
      estimateImpact category (singletonZeroInput material)
          { industry := .textile, scope := scope, database := db, method := method,
            product_weight_grams := w } =
        estimateImpact category (singletonFullInput material)
          { industry := .textile, scope := scope, database := db, method := method,
            product_weight_grams := w }) ∧
    estimateImpact "climate_change" (singletonZeroInput "Wool fiber (Global)")
        { industry := .textile, scope := "cradle-to-gate", database := "USLCI",
          method := "ReCiPe", product_weight_grams := 1000 } = some (231/5) ∧
    (231/5 : ℚ) ≠ round6 ((1 : ℚ) * (59/10) * (3/2) * (11/10) * 1) := by
  refine ⟨?_, by decide, by decide⟩
  intro category material scope db method w
  have hterm : yarnTerm (w / 1000) 1
      { percentage := 0, spinning_method := none,
        fibers := [{ material := some material, percentage := 0 }] } =
      yarnTerm (w / 1000) 1
      { percentage := 100, spinning_method := none,
        fibers := [{ material := some material, percentage := 100 }] } := by
    rw [yarnTerm, yarnTerm]
    simp only [List.length_cons, List.length_nil, List.map_cons, List.map_nil]
    rw [fiberTerm, fiberTerm]
    cases firstWord (strLower ((some material).getD "cotton")) with
    | none => rfl
    | some ww => norm_num
  rw [estimateImpact, estimateImpact]
  simp only [singletonZeroInput, singletonFullInput, List.map_cons, List.map_nil,
    List.length_cons, List.length_nil, hterm]

theorem round6_err (x : ℚ) : |round6 x - x| ≤ 1/2000000 := by
  rw [round6, abs_le]
  have h1 : (x * 1000000 + 1/2) - 1 < (⌊x * 1000000 + 1/2⌋ : ℚ) := Int.sub_one_lt_floor _
  have h2 : (⌊x * 1000000 + 1/2⌋ : ℚ) ≤ x * 1000000 + 1/2 := Int.floor_le _
  constructor <;> [linarith; linarith]

theorem sum_round6_err (l : List ℚ) :
    |(l.map round6).sum - l.sum| ≤ (l.length : ℚ) * (1/2000000) := by
  induction l with
  | nil => simp
  | cons a t ih =>
    simp only [List.map_cons, List.sum_cons, List.length_cons]
    have habs : |round6 a + (t.map round6).sum - (a + t.sum)| ≤
        |round6 a - a| + |(t.map round6).sum - t.sum| := by
      have : round6 a + (t.map round6).sum - (a + t.sum) =
          (round6 a - a) + ((t.map round6).sum - t.sum) := by ring
      rw [this]
      exact abs_add _ _
    have hb := add_le_add (round6_err a) ih
    have : ((t.length + 1 : ℕ) : ℚ) * (1/2000000) =
        1/2000000 + (t.length : ℚ) * (1/2000000) := by
      push_cast
      ring
    rw [this]
    linarith

theorem stageFractions_sum_pos (industry : Industry) (scope : String) :
    0 < ((stageFractions industry scope).map Prod.snd).sum := by
  cases industry <;> cases hg : scopeIncludesGrave scope <;>
    simp [stageFractions, hg] <;> norm_num

/-- C7: the estimator's per-stage contributions sum back to the estimated
total within the rounding tolerance of one half-millionth per stage, for
every industry, scope, category and input, because the static fractions are
re-normalized by their sum before being applied. -/
theorem sum_map_mul_const (l : List ℚ) (c : ℚ) : (l.map fun v => v * c).sum = l.sum * c := by
  induction l with
  | nil => simp
  | cons a t ih =>
    simp only [List.map_cons, List.sum_cons, ih]
    ring

/-- C7: the estimator's per-stage contributions sum back to the estimated
total within the rounding tolerance of one half-millionth per stage, for
every industry, scope, category and input, because the static fractions are
re-normalized by their sum before being applied. -/
theorem contributions_sum_to_total (category : String) (input : TextileInput)
    (project : LCAProject) (total : ℚ) (m : List (String × ℚ))
    (htotal : estimateImpact category input project = some total)
    (hm : estimateContributions category input project = some m) :
    |(m.map Prod.snd).sum - total| ≤ (m.length : ℚ) * (1/2000000) := by
  rw [estimateContributions, htotal] at hm
  simp only [Option.map_some'] at hm
  have hm' := Option.some.inj hm.symm
  set xs := stageFractions project.industry project.scope with hxs
  set P := (xs.map Prod.snd).sum with hP
  have hPpos : 0 < P := stageFractions_sum_pos project.industry project.scope
  have hPne : P ≠ 0 := ne_of_gt hPpos
  have hsnd : m.map Prod.snd = (xs.map fun p => p.2 / P * total).map round6 := by
    rw [hm', List.map_map, List.map_map]
    rfl
  have hlen : m.length = xs.length := by
    rw [hm', List.length_map]
  have hsum : (xs.map fun p => p.2 / P * total).sum = total := by
    have h1 : (xs.map fun p => p.2 / P * total) =
        (xs.map Prod.snd).map fun v => v * (total / P) := by
      rw [List.map_map]
      apply List.map_congr_left
      intro p _
      show p.2 / P * total = p.2 * (total / P)
      field_simp
    rw [h1, sum_map_mul_const, ← hP]
    field_simp
  rw [hsnd, hlen]
  have := sum_round6_err (xs.map fun p => p.2 / P * total)
  rw [hsum] at this
  simpa using this

/-- The concrete contribution list of `estimateContributions` on the C5
scenario, used by the C7 witness. -/
def c7List : List (String × ℚ) :=
  (estimateContributions "climate_change" c5Input c5Project).getD []

/-- Witness for `contributions_sum_to_total` on the C5 scenario. -/
theorem contributions_sum_witness :
    |(c7List.map Prod.snd).sum - (1947/800 : ℚ)| ≤ (c7List.length : ℚ) * (1/2000000) :=
  contributions_sum_to_total "climate_change" c5Input c5Project (1947/800) c7List
    (by decide) (by decide)

/-! ## Impact Calculator (`calculate_lca`) -/

/-- One row of `IMPACT_CATEGORIES`: method family, descriptive phrase,
abbreviation, unit. -/
structure CategoryInfo where
  family : String
  cname : String
  abbr : String
  unit : String
deriving DecidableEq

/-- `IMPACT_CATEGORIES['ReCiPe']`. -/
def recipeCategories : List (String × CategoryInfo) :=
  [("climate_change", ⟨"ReCiPe Midpoint (H)", "climate change", "GWP100", "kg CO2 eq"⟩),
   ("ozone_depletion", ⟨"ReCiPe Midpoint (H)", "ozone depletion", "ODP", "kg CFC-11 eq"⟩),
   ("terrestrial_acidification",
     ⟨"ReCiPe Midpoint (H)", "terrestrial acidification", "TAP", "kg SO2 eq"⟩),
   ("freshwater_eutrophication",
     ⟨"ReCiPe Midpoint (H)", "freshwater eutrophication", "FEP", "kg P eq"⟩),
   ("marine_eutrophication",
     ⟨"ReCiPe Midpoint (H)", "marine eutrophication", "MEP", "kg N eq"⟩),
   ("human_toxicity", ⟨"ReCiPe Midpoint (H)", "human toxicity", "HTPinf", "kg 1,4-DB eq"⟩),
   ("photochemical_oxidant_formation",
     ⟨"ReCiPe Midpoint (H)", "photochemical oxidant formation", "POFP", "kg NMVOC"⟩),
   ("particulate_matter_formation",
     ⟨"ReCiPe Midpoint (H)", "particulate matter formation", "PMFP", "kg PM10 eq"⟩),
   ("terrestrial_ecotoxicity",
     ⟨"ReCiPe Midpoint (H)", "terrestrial ecotoxicity", "TETP", "kg 1,4-DB eq"⟩),
   ("freshwater_ecotoxicity",
     ⟨"ReCiPe Midpoint (H)", "freshwater ecotoxicity", "FETP", "kg 1,4-DB eq"⟩),
   ("marine_ecotoxicity",
     ⟨"ReCiPe Midpoint (H)", "marine ecotoxicity", "METP", "kg 1,4-DB eq"⟩),
   ("ionising_radiation",
     ⟨"ReCiPe Midpoint (H)", "ionising radiation", "IRP_HE", "kg U235 eq"⟩),
   ("agricultural_land_occupation",
     ⟨"ReCiPe Midpoint (H)", "agricultural land occupation", "ALOP", "m2a"⟩),
   ("urban_land_occupation",
     ⟨"ReCiPe Midpoint (H)", "urban land occupation", "ULOP", "m2a"⟩),
   ("natural_land_transformation",
     ⟨"ReCiPe Midpoint (H)", "natural land transformation", "NLTP", "m2"⟩),
   ("water_depletion", ⟨"ReCiPe Midpoint (H)", "water depletion", "WDP", "m3"⟩),
   ("metal_depletion", ⟨"ReCiPe Midpoint (H)", "metal depletion", "MDP", "kg Fe eq"⟩),
   ("fossil_depletion", ⟨"ReCiPe Midpoint (H)", "fossil depletion", "FDP", "kg oil eq"⟩)]

/-- `IMPACT_CATEGORIES['EF3.1']`. -/
def ef31Categories : List (String × CategoryInfo) :=
  [("climate_change", ⟨"EF 3.1", "climate change", "GWP", "kg CO2 eq"⟩),
   ("ozone_depletion", ⟨"EF 3.1", "ozone depletion", "ODP", "kg CFC-11 eq"⟩),
   ("human_toxicity_cancer", ⟨"EF 3.1", "human toxicity: cancer", "HT-c", "CTUh"⟩),
   ("human_toxicity_non_cancer", ⟨"EF 3.1", "human toxicity: non-cancer", "HT-nc", "CTUh"⟩),
   ("particulate_matter", ⟨"EF 3.1", "particulate matter", "PM", "disease incidence"⟩),
   ("ionising_radiation", ⟨"EF 3.1", "ionising radiation", "IR", "kBq U235 eq"⟩),
   ("photochemical_ozone_formation",
     ⟨"EF 3.1", "photochemical ozone formation", "POF", "kg NMVOC eq"⟩),
   ("acidification", ⟨"EF 3.1", "acidification", "AP", "mol H+ eq"⟩),
   ("eutrophication_terrestrial",
     ⟨"EF 3.1", "eutrophication: terrestrial", "EP-t", "mol N eq"⟩),
   ("eutrophication_freshwater",
     ⟨"EF 3.1", "eutrophication: freshwater", "EP-fw", "kg P eq"⟩),
   ("eutrophication_marine", ⟨"EF 3.1", "eutrophication: marine", "EP-m", "kg N eq"⟩),
   ("ecotoxicity_freshwater", ⟨"EF 3.1", "ecotoxicity: freshwater", "ET-fw", "CTUe"⟩),
   ("land_use", ⟨"EF 3.1", "land use", "LU", "Pt"⟩),
   ("water_use", ⟨"EF 3.1", "water use", "WU", "m3 world eq"⟩),
   ("resource_use_minerals",
     ⟨"EF 3.1", "resource use: minerals and metals", "RU-mm", "kg Sb eq"⟩),
   ("resource_use_fossils", ⟨"EF 3.1", "resource use: fossils", "RU-f", "MJ"⟩)]

/-- `IMPACT_CATEGORIES.get(project.method, IMPACT_CATEGORIES['ReCiPe'])`. -/
def impactCategoriesFor (method : String) : List (String × CategoryInfo) :=
  if method = "ReCiPe" then recipeCategories
  else if method = "EF3.1" then ef31Categories
  else recipeCategories

/-- Outcome of one category's external interactions inside the try-block:
`noMethod` — `_find_method` returned none; `success` — the Brightway solver
returned a score and the stage summation produced contributions; `failure` —
anything in the try-block raised. -/
inductive SolverOutcome
  | noMethod
  | success (score : ℚ) (contributions : List (String × ℚ))
  | failure
deriving DecidableEq

/-- One `{value, unit, abbreviation, name}` entry of the result. -/
structure CategoryResult where
  value : ℚ
  unit : String
  abbreviation : String
  cname : String
deriving DecidableEq

structure LCAResults where
  method : String
  impact_categories : List (String × CategoryResult)
  contribution_by_stage : List (String × List (String × ℚ))
deriving DecidableEq

/-- One category of the `calculate_lca` loop: the solver's success supplies
value and contributions; `noMethod` (the `else` branch) and `failure` (the
`except` handler) both fall back to the Deterministic Estimator for both.
`none` when the estimator itself raises inside the fallback. -/
def categoryEntry (oracle : String → SolverOutcome) (project : LCAProject)
    (input : TextileInput) (p : String × CategoryInfo) :
    Option (CategoryResult × List (String × ℚ)) :=
  match oracle p.1 with
  | .success score contribs =>
    some (⟨score, p.2.unit, p.2.abbr, p.2.cname⟩, contribs)
  | _ =>
    match estimateImpact p.1 input project, estimateContributions p.1 input project with
    | some v, some m => some (⟨v, p.2.unit, p.2.abbr, p.2.cname⟩, m)
    | _, _ => none

/-- The loop over the method's categories. -/
def collectEntries (oracle : String → SolverOutcome) (project : LCAProject)
    (input : TextileInput) :
    List (String × CategoryInfo) →
      Option (List (String × (CategoryResult × List (String × ℚ))))
  | [] => some []
  | p :: rest =>
    match categoryEntry oracle project input p,
        collectEntries oracle project input rest with
    | some r, some t => some ((p.1, r) :: t)
    | _, _ => none

/-- `Brightway2Engine.calculate_lca`, the external Brightway2 stack abstracted
as `oracle`. -/
def calculateLCA (oracle : String → SolverOutcome) (project : LCAProject)
    (input : TextileInput) : Option LCAResults :=
  (collectEntries oracle project input (impactCategoriesFor project.method)).map
    fun entries =>
      { method := project.method
        impact_categories := entries.map fun e => (e.1, e.2.1)
        contribution_by_stage := entries.map fun e => (e.1, e.2.2) }

theorem lookup_map_snd {β γ : Type} (l : List (String × β)) (g : β → γ) (k : String) :
    (l.map fun e => (e.1, g e.2)).lookup k = (l.lookup k).map g := by
  induction l with
  | nil => rfl
  | cons a t ih =>
    by_cases h : k == a.1
    · simp [List.lookup, h]
    · simp only [List.map_cons, List.lookup, h]
      exact ih

theorem collectEntries_spec (oracle : String → SolverOutcome) (project : LCAProject)
    (input : TextileInput) :
    ∀ (cats : List (String × CategoryInfo))
      (entries : List (String × (CategoryResult × List (String × ℚ)))),
      collectEntries oracle project input cats = some entries →
      (cats.map Prod.fst).Nodup →
      ∀ p ∈ cats, ∃ r, entries.lookup p.1 = some r ∧
        categoryEntry oracle project input p = some r := by
  intro cats
  induction cats with
  | nil =>
    intro entries _ _ p hp
    exact absurd hp (List.not_mem_nil p)
  | cons q rest ih =>
    intro entries hc hnd p hp
    rw [collectEntries] at hc
    cases hq : categoryEntry oracle project input q with
    | none => rw [hq] at hc; simp at hc
    | some r =>
      rw [hq] at hc
      cases hrest : collectEntries oracle project input rest with
      | none => rw [hrest] at hc; simp at hc
      | some t =>
        rw [hrest] at hc
        simp only [Option.some.injEq] at hc
        subst hc
        rcases List.mem_cons.mp hp with hp1 | hp2
        · subst hp1
          exact ⟨r, by simp [List.lookup], hq⟩
        · have hne : p.1 ≠ q.1 := by
            simp only [List.map_cons, List.nodup_cons] at hnd
            intro he
            exact hnd.1 (he ▸ List.mem_map_of_mem Prod.fst hp2)
          obtain ⟨r', hr1, hr2⟩ := ih t hrest
            (by simp only [List.map_cons, List.nodup_cons] at hnd; exact hnd.2) p hp2
          refine ⟨r', ?_, hr2⟩
          have hbeq : (p.1 == q.1) = false := beq_eq_false_iff_ne.mpr hne
          rw [List.lookup, hbeq]
          exact hr1

theorem impactCategories_keys_nodup (method : String) :
    ((impactCategoriesFor method).map Prod.fst).Nodup := by
  rw [impactCategoriesFor]
  by_cases h1 : method = "ReCiPe"
  · rw [if_pos h1]
    decide
  · rw [if_neg h1]
    by_cases h2 : method = "EF3.1"
    · rw [if_pos h2]
      decide
    · rw [if_neg h2]
      decide

/-- C8: whatever the solver does per category — no method match, a raised
exception, or a successful computation — the calculator's result carries,
for every category of the project's method, a `{value, unit, abbreviation,
name}` entry and a stage-contribution mapping; failed categories take both
from the Deterministic Estimator, and a failure never removes the other
categories. -/
theorem calculator_per_category_fallback (oracle : String → SolverOutcome)
    (project : LCAProject) (input : TextileInput) (res : LCAResults)
    (hres : calculateLCA oracle project input = some res) :
    ∀ p ∈ impactCategoriesFor project.method,
      ∃ entry contribs,
        res.impact_categories.lookup p.1 = some entry ∧
        res.contribution_by_stage.lookup p.1 = some contribs ∧
        entry.unit = p.2.unit ∧ entry.abbreviation = p.2.abbr ∧ entry.cname = p.2.cname ∧
        (∀ s c, oracle p.1 = SolverOutcome.success s c → entry.value = s ∧ contribs = c) ∧
        ((oracle p.1 = SolverOutcome.noMethod ∨ oracle p.1 = SolverOutcome.failure) →
          estimateImpact p.1 input project = some entry.value ∧
          estimateContributions p.1 input project = some contribs) := by
  intro p hp
  rw [calculateLCA] at hres
  cases hc : collectEntries oracle project input (impactCategoriesFor project.method) with
  | none =>
    rw [hc] at hres
    rw [Option.map_none'] at hres
    exact Option.noConfusion hres
  | some entries =>
    rw [hc] at hres
    simp only [Option.map_some', Option.some.injEq] at hres
    obtain ⟨r, hr1, hr2⟩ := collectEntries_spec oracle project input _ entries hc
      (impactCategories_keys_nodup project.method) p hp
    have hlook1 : res.impact_categories.lookup p.1 = some r.1 := by
      rw [← hres]
      show (entries.map fun e => (e.1, e.2.1)).lookup p.1 = some r.1
      rw [lookup_map_snd entries (fun v => v.1) p.1, hr1]
      rfl
    have hlook2 : res.contribution_by_stage.lookup p.1 = some r.2 := by
      rw [← hres]
      show (entries.map fun e => (e.1, e.2.2)).lookup p.1 = some r.2
      rw [lookup_map_snd entries (fun v => v.2) p.1, hr1]
      rfl
    rw [categoryEntry] at hr2
    cases ho : oracle p.1 with
    | success sc co =>
      rw [ho] at hr2
      simp only [Option.some.injEq] at hr2
      subst hr2
      refine ⟨_, _, hlook1, hlook2, rfl, rfl, rfl, ?_, ?_⟩
      · intro s c hsc
        injection hsc with h1 h2
        subst h1
        subst h2
        exact ⟨rfl, rfl⟩
      · intro hcontra
        rcases hcontra with h | h <;> cases h
    | noMethod =>
      rw [ho] at hr2
      cases h1 : estimateImpact p.1 input project with
      | none =>
        rw [h1] at hr2
        simp at hr2
      | some v =>
        cases h2 : estimateContributions p.1 input project with
        | none =>
          rw [h1, h2] at hr2
          simp at hr2
        | some mm =>
          rw [h1, h2] at hr2
          simp only [Option.some.injEq] at hr2
          subst hr2
          refine ⟨_, _, hlook1, hlook2, rfl, rfl, rfl, ?_, ?_⟩
          · intro s c hsc
            cases hsc
          · intro _
            exact ⟨rfl, rfl⟩
    | failure =>
      rw [ho] at hr2
      cases h1 : estimateImpact p.1 input project with
      | none =>
        rw [h1] at hr2
        simp at hr2
      | some v =>
        cases h2 : estimateContributions p.1 input project with
        | none =>
          rw [h1, h2] at hr2
          simp at hr2
        | some mm =>
          rw [h1, h2] at hr2
          simp only [Option.some.injEq] at hr2
          subst hr2
          refine ⟨_, _, hlook1, hlook2, rfl, rfl, rfl, ?_, ?_⟩
          · intro s c hsc
            cases hsc
          · intro _
            exact ⟨rfl, rfl⟩

/-- A solver run that raises for `ozone_depletion` only and succeeds with a
fixed score elsewhere (the spec's solver-failure scenario). -/
def c8Oracle (category : String) : SolverOutcome :=
  if category = "ozone_depletion" then SolverOutcome.failure
  else SolverOutcome.success 1 [("raw_materials", 1)]

/-- The calculator's result on that scenario. -/
def c8Res : LCAResults := (calculateLCA c8Oracle c5Project c5Input).getD ⟨"", [], []⟩

/-- Witness for `calculator_per_category_fallback`: with the solver failing
on `ozone_depletion` only, the result still carries an estimator-backed entry
for it. -/
theorem calculator_per_category_fallback_witness :
    ∃ entry contribs,
      c8Res.impact_categories.lookup "ozone_depletion" = some entry ∧
      c8Res.contribution_by_stage.lookup "ozone_depletion" = some contribs ∧
      entry.unit = "kg CFC-11 eq" ∧ entry.abbreviation = "ODP" ∧
      entry.cname = "ozone depletion" ∧
      (∀ s c, c8Oracle "ozone_depletion" = SolverOutcome.success s c →
        entry.value = s ∧ contribs = c) ∧
      ((c8Oracle "ozone_depletion" = SolverOutcome.noMethod ∨
          c8Oracle "ozone_depletion" = SolverOutcome.failure) →
        estimateImpact "ozone_depletion" c5Input c5Project = some entry.value ∧
        estimateContributions "ozone_depletion" c5Input c5Project = some contribs) :=
  calculator_per_category_fallback c8Oracle c5Project c5Input c8Res (by decide)
    ("ozone_depletion", ⟨"ReCiPe Midpoint (H)", "ozone depletion", "ODP", "kg CFC-11 eq"⟩)
    (by decide)

/-! ## Impact Origin Tracer (`trace_impact_origin`) -/

/-- One characterization-factor row: `(emission, factor, unit)`. -/
def characterizationFactors : List (String × List (String × ℚ × String)) :=
  [("climate_change",
    [("CO2", 1, "kg CO2-eq/kg CO2"), ("CH4", 28, "kg CO2-eq/kg CH4"),
     ("N2O", 265, "kg CO2-eq/kg N2O"), ("SF6", 23500, "kg CO2-eq/kg SF6"),
     ("HFC-134a", 1300, "kg CO2-eq/kg HFC")]),
   ("water_depletion",
    [("freshwater", 1, "m3/m3"), ("groundwater", 12/10, "m3/m3"),
     ("surface_water", 8/10, "m3/m3")]),
   ("terrestrial_acidification",
    [("SO2", 1, "kg SO2-eq/kg SO2"), ("NOx", 1/2, "kg SO2-eq/kg NOx"),
     ("NH3", 16/10, "kg SO2-eq/kg NH3")]),
   ("freshwater_eutrophication",
    [("PO4", 1, "kg P-eq/kg PO4"), ("P", 306/100, "kg P-eq/kg P")]),
   ("human_toxicity",
    [("benzene", 19/10000, "CTUh/kg"), ("formaldehyde", 21/10000000, "CTUh/kg"),
     ("lead", 45/1000000, "CTUh/kg")])]

/-- `characterization_factors.get(impact_category,
characterization_factors.get('climate_change', {}))`. -/
def cfFor (impact_category : String) : List (String × ℚ × String) :=
  match characterizationFactors.lookup impact_category with
  | some l => l
  | none => (characterizationFactors.lookup "climate_change").getD []

/-- The static industry → stage → activity-list table
(`stage_activity_mapping`). -/
def stageActivityMapping (industry : Industry) : List (String × List String) :=
  match industry with
  | .textile =>
    [("raw_materials", ["fiber_production", "fiber_processing"]),
     ("yarn_production", ["spinning", "yarn_twisting", "yarn_winding"]),
     ("fabric_production", ["weaving", "knitting", "finishing_prep"]),
     ("dyeing_finishing", ["dyeing", "printing", "finishing"]),
     ("manufacturing", ["cutting", "sewing", "assembly"]),
     ("transport", ["road_transport", "sea_transport", "air_transport"]),
     ("use_phase", ["washing", "drying", "ironing"]),
     ("end_of_life", ["recycling", "incineration", "landfill"])]
  | .footwear =>
    [("raw_materials", ["leather_production", "rubber_production", "textile_production"]),
     ("component_production", ["sole_manufacturing", "upper_production"]),
     ("assembly", ["lasting", "cementing", "finishing"]),
     ("transport", ["road_transport", "sea_transport"]),
     ("use_phase", ["cleaning", "maintenance"]),
     ("end_of_life", ["recycling", "incineration", "landfill"])]
  | .construction =>
    [("raw_materials", ["cement_production", "aggregate_extraction", "steel_production"]),
     ("processing", ["mixing", "forming", "curing"]),
     ("transport", ["road_transport", "rail_transport"]),
     ("installation", ["site_work", "installation", "finishing"]),
     ("use_phase", ["maintenance", "repair"]),
     ("end_of_life", ["demolition", "recycling", "landfill"])]
  | .battery =>
    [("raw_materials", ["lithium_extraction", "cobalt_mining", "nickel_production"]),
     ("cell_production", ["electrode_coating", "cell_assembly", "formation"]),
     ("pack_assembly", ["module_assembly", "bms_integration", "pack_finishing"]),
     ("transport", ["road_transport", "sea_transport"]),
     ("use_phase", ["charging_losses", "thermal_management"]),
     ("end_of_life", ["disassembly", "recycling", "disposal"])]

/-- The static per-activity emission profiles (`activity_emissions`), in the
source's insertion order; amounts are kg pollutant (or kWh/MJ) per kg of
product. -/
def activityEmissions : List (String × List (String × ℚ)) :=
  [("spinning",
    [("CO2", 45/100), ("CH4", 2/1000), ("SO2", 1/1000), ("NOx", 2/1000),
     ("electricity_kwh", 25/10), ("steam_mj", 5)]),
   ("yarn_twisting",
    [("CO2", 15/100), ("CH4", 1/1000), ("SO2", 5/10000), ("NOx", 1/1000),
     ("electricity_kwh", 12/10)]),
   ("yarn_winding", [("CO2", 8/100), ("CH4", 5/10000), ("electricity_kwh", 8/10)]),
   ("fiber_production",
    [("CO2", 35/10), ("CH4", 5/100), ("N2O", 2/100), ("SO2", 1/100), ("NOx", 2/100),
     ("freshwater", 50), ("PO4", 5/1000), ("P", 1/1000)]),
   ("fiber_processing",
    [("CO2", 8/10), ("CH4", 1/100), ("SO2", 5/1000), ("electricity_kwh", 3)]),
   ("weaving", [("CO2", 6/10), ("CH4", 3/1000), ("electricity_kwh", 4)]),
   ("knitting", [("CO2", 4/10), ("CH4", 2/1000), ("electricity_kwh", 28/10)]),
   ("finishing_prep", [("CO2", 3/10), ("CH4", 1/1000), ("freshwater", 20)]),
   ("dyeing",
    [("CO2", 12/10), ("CH4", 1/100), ("SO2", 8/1000), ("NOx", 5/1000),
     ("freshwater", 100), ("steam_mj", 15), ("benzene", 1/100000)]),
   ("printing", [("CO2", 5/10), ("CH4", 3/1000), ("freshwater", 30)]),
   ("finishing", [("CO2", 8/10), ("CH4", 5/1000), ("formaldehyde", 1/10000)]),
   ("cutting", [("CO2", 1/10), ("electricity_kwh", 1/2)]),
   ("sewing", [("CO2", 15/100), ("electricity_kwh", 8/10)]),
   ("assembly", [("CO2", 8/100), ("electricity_kwh", 3/10)]),
   ("road_transport",
    [("CO2", 1/10), ("CH4", 1/10000), ("NOx", 1/1000), ("SO2", 2/10000)]),
   ("sea_transport",
    [("CO2", 2/100), ("CH4", 2/100000), ("NOx", 4/10000), ("SO2", 3/10000)]),
   ("air_transport", [("CO2", 12/10), ("CH4", 3/10000), ("NOx", 3/1000)]),
   ("rail_transport", [("CO2", 3/100), ("CH4", 3/100000), ("NOx", 2/10000)]),
   ("washing",
    [("CO2", 3/10), ("freshwater", 50), ("PO4", 1/1000), ("electricity_kwh", 1/2)]),
   ("drying", [("CO2", 1/2), ("CH4", 2/1000), ("electricity_kwh", 25/10)]),
   ("ironing", [("CO2", 2/10), ("electricity_kwh", 1)]),
   ("recycling", [("CO2", -1/2), ("CH4", 1/100)]),
   ("incineration", [("CO2", 2), ("CH4", 1/1000), ("SO2", 5/1000), ("NOx", 3/1000)]),
   ("landfill", [("CO2", 1/10), ("CH4", 2/10)])]

/-- One exchange line of a trace. -/
structure TraceExchange where
  flow_name : String
  flow_amount : ℚ
  flow_unit : String
  emission_name : String
  emission_amount : ℚ
  emission_unit : String
  characterization_factor : ℚ
  cf_unit : String
  impact_contribution : ℚ
deriving DecidableEq

structure ActivityTrace where
  activity_name : String
  activity_code : String
  exchanges : List TraceExchange
  subtotal_impact : ℚ
deriving DecidableEq

structure TraceSummary where
  num_activities : Nat
  num_exchanges : Nat
  dominant_activity : String
  unit : String
deriving DecidableEq

structure TraceResult where
  impact_category : String
  life_cycle_stage : String
  product_weight_kg : ℚ
  activities : List ActivityTrace
  total_stage_impact : ℚ
  calculation_method : String
  database : String
  summary : TraceSummary
deriving DecidableEq

/-- Python `activity.replace('_', ' ').title()`: a letter is upper-cased
exactly when it does not follow another letter. -/
def titleCase (s : String) : String :=
  String.mk ((mapReplace '_' ' ' s.data).foldl
    (fun acc c =>
      (acc.1 ++ [if acc.2 then lowerChar c else upperChar c], c.isAlpha))
    (([], false) : List Char × Bool)).1

/-- `emission.upper()`. -/
def strUpper (s : String) : String := String.mk (s.data.map upperChar)

/-- The exchange lines and (unrounded) subtotal of one activity's emission
profile: `electricity_kwh` converts to CO2 at 0.5 kg/kWh and is folded in
only when the category's factor table prices CO2; `steam_mj` is skipped;
every other emission present in the factor table contributes
`amount * weight * factor`. -/
def activityExchangeLines (cf : List (String × ℚ × String)) (weight_kg : ℚ)
    (data : List (String × ℚ)) : List TraceExchange × ℚ :=
  data.foldl
    (fun acc e =>
      if e.1 = "electricity_kwh" ∨ e.1 = "steam_mj" then
        if e.1 = "electricity_kwh" then
          match cf.lookup "CO2" with
          | some cfe =>
            (acc.1 ++
              [{ flow_name := "Electricity consumption",
                 flow_amount := e.2 * weight_kg,
                 flow_unit := "kWh",
                 emission_name := "CO2 (from electricity)",
                 emission_amount := round6 (e.2 * weight_kg * (1/2)),
                 emission_unit := "kg",
                 characterization_factor := cfe.1,
                 cf_unit := cfe.2,
                 impact_contribution := round6 (e.2 * weight_kg * (1/2) * cfe.1) }],
             acc.2 + e.2 * weight_kg * (1/2) * cfe.1)
          | none => acc
        else acc
      else
        match cf.lookup e.1 with
        | some cfe =>
          (acc.1 ++
            [{ flow_name := strUpper e.1 ++ " emission",
               flow_amount := round6 (e.2 * weight_kg),
               flow_unit :=
                 if e.1 ≠ "freshwater" ∧ e.1 ≠ "groundwater" ∧ e.1 ≠ "surface_water" then
                   "kg"
                 else "m3",
               emission_name := strUpper e.1,
               emission_amount := round6 (e.2 * weight_kg),
               emission_unit :=
                 if e.1 ≠ "freshwater" ∧ e.1 ≠ "groundwater" ∧ e.1 ≠ "surface_water" then
                   "kg"
                 else "m3",
               characterization_factor := cfe.1,
               cf_unit := cfe.2,
               impact_contribution := round6 (e.2 * weight_kg * cfe.1) }],
           acc.2 + e.2 * weight_kg * cfe.1)
        | none => acc)
    (([], 0) : List TraceExchange × ℚ)

/-- One activity's trace block and its unrounded impact. -/
def traceActivity (cf : List (String × ℚ × String)) (weight_kg : ℚ)
    (activity : String) : ActivityTrace × ℚ :=
  ({ activity_name := titleCase activity
     activity_code := activity
     exchanges := (activityExchangeLines cf weight_kg
       ((activityEmissions.lookup activity).getD [])).1
     subtotal_impact := round6 (activityExchangeLines cf weight_kg
       ((activityEmissions.lookup activity).getD [])).2 },
   (activityExchangeLines cf weight_kg ((activityEmissions.lookup activity).getD [])).2)

/-- Python `max(activities, key=subtotal_impact)` (first maximum wins),
`'N/A'` on an empty list. -/
def dominantActivity : List ActivityTrace → String
  | [] => "N/A"
  | a :: rest =>
    (rest.foldl (fun best x => if best.subtotal_impact < x.subtotal_impact then x else best)
      a).activity_name

/-- `Brightway2Engine._get_impact_unit`. -/
def getImpactUnit (category method : String) : String :=
  match (impactCategoriesFor method).lookup category with
  | some info => info.unit
  | none => "unit"

/-- `Brightway2Engine.trace_impact_origin` (the `input_data` argument is not
read by the source either): stage activities from the static table
(`.get(stage, [])`), characterization factors falling back to
`climate_change` for unknown categories, one trace block per activity with at
least one qualifying exchange, the unrounded subtotals summed into the stage
total, and the summary statistics. -/
def traceImpactOrigin (project : LCAProject) (input_data : TextileInput)
    (impact_category life_cycle_stage : String) : TraceResult :=
  { impact_category := impact_category
    life_cycle_stage := life_cycle_stage
    product_weight_kg := project.product_weight_grams / 1000
    activities :=
      (((((stageActivityMapping project.industry).lookup life_cycle_stage).getD []).map
        (traceActivity (cfFor impact_category)
          (project.product_weight_grams / 1000))).filter
        (fun p => !p.1.exchanges.isEmpty)).map Prod.fst
    total_stage_impact := round6
      (((((stageActivityMapping project.industry).lookup life_cycle_stage).getD []).map
        (traceActivity (cfFor impact_category)
          (project.product_weight_grams / 1000))).map Prod.snd).sum
    calculation_method := project.method
    database := project.database
    summary :=
      { num_activities :=
          ((((((stageActivityMapping project.industry).lookup life_cycle_stage).getD
            []).map (traceActivity (cfFor impact_category)
              (project.product_weight_grams / 1000))).filter
            (fun p => !p.1.exchanges.isEmpty)).map Prod.fst).length
        num_exchanges :=
          (((((((stageActivityMapping project.industry).lookup life_cycle_stage).getD
            []).map (traceActivity (cfFor impact_category)
              (project.product_weight_grams / 1000))).filter
            (fun p => !p.1.exchanges.isEmpty)).map Prod.fst).map
              (fun a => a.exchanges.length)).sum
        dominant_activity := dominantActivity
          ((((((stageActivityMapping project.industry).lookup life_cycle_stage).getD
            []).map (traceActivity (cfFor impact_category)
              (project.product_weight_grams / 1000))).filter
            (fun p => !p.1.exchanges.isEmpty)).map Prod.fst)
        unit := getImpactUnit impact_category project.method } }

/-! ## C9: unknown impact category -/

/-- Project used by the tracer claims. -/
def c9Project : LCAProject :=
  { industry := .textile, scope := "cradle-to-grave", database := "USLCI",
    method := "ReCiPe", product_weight_grams := 1000 }

/-- The tracer never reads the input document; an all-empty one. -/
def c9Input : TextileInput :=
  { yarns := [], fabrics := [], manufacturing := none, transport_legs := [],
    use_phase := none, end_of_life := none }

/-- C9 counterexample: asking the Tracer for the unknown category
`not_a_category` does not raise — it returns a normal, populated trace result
(identical to the climate-change trace up to the echoed key). -/
theorem tracer_unknown_category_cex :
    (traceImpactOrigin c9Project c9Input "not_a_category" "yarn_production").activities =
      (traceImpactOrigin c9Project c9Input "climate_change" "yarn_production").activities ∧
    (traceImpactOrigin c9Project c9Input "not_a_category"
        "yarn_production").total_stage_impact =
      (traceImpactOrigin c9Project c9Input "climate_change"
        "yarn_production").total_stage_impact ∧
    (traceImpactOrigin c9Project c9Input "not_a_category"
      "yarn_production").summary.num_activities = 3 ∧
    (traceImpactOrigin c9Project c9Input "not_a_category"
      "yarn_production").impact_category = "not_a_category" := by
  refine ⟨by decide, by decide, by decide, rfl⟩

/-- C9 (amended): an unknown impact-category key is not a propagated error —
`characterization_factors.get` falls back to the climate-change table, so the
Tracer returns a normal trace result whose activities and stage total are
those of the climate-change trace, with the requested key echoed. -/
theorem tracer_unknown_category_fallback (project : LCAProject) (input : TextileInput)
    (cat stage : String) (h : characterizationFactors.lookup cat = none) :
    (traceImpactOrigin project input cat stage).activities =
      (traceImpactOrigin project input "climate_change" stage).activities ∧
    (traceImpactOrigin project input cat stage).total_stage_impact =
      (traceImpactOrigin project input "climate_change" stage).total_stage_impact ∧
    (traceImpactOrigin project input cat stage).impact_category = cat := by
  have hcf : cfFor cat = cfFor "climate_change" := by
    rw [cfFor, h]
    rfl
  unfold traceImpactOrigin
  rw [hcf]
  exact ⟨rfl, rfl, rfl⟩

/-- Witness for `tracer_unknown_category_fallback` at a concrete unknown
key. -/
theorem tracer_unknown_category_fallback_witness :
    (traceImpactOrigin c9Project c9Input "mystery_category" "use_phase").impact_category =
      "mystery_category" :=
  (tracer_unknown_category_fallback c9Project c9Input "mystery_category" "use_phase"
    (by decide)).2.2

/-! ## C10: unknown life-cycle stage -/

/-- C10: a stage name absent from the industry's static stage → activity
table yields, for every project, input, and category, a normal trace result
with no activities, stage total 0, zero counts, and dominant activity
`'N/A'`. -/
theorem tracer_unknown_stage (project : LCAProject) (input : TextileInput)
    (cat stage : String)
    (h : (stageActivityMapping project.industry).lookup stage = none) :
    (traceImpactOrigin project input cat stage).activities = [] ∧
    (traceImpactOrigin project input cat stage).total_stage_impact = 0 ∧
    (traceImpactOrigin project input cat stage).summary.num_activities = 0 ∧
    (traceImpactOrigin project input cat stage).summary.num_exchanges = 0 ∧
    (traceImpactOrigin project input cat stage).summary.dominant_activity = "N/A" := by
  have hr0 : round6 0 = 0 := by decide
  unfold traceImpactOrigin
  rw [h]
  simp only [Option.getD_none, List.map_nil, List.filter_nil, List.sum_nil, hr0,
    List.length_nil, dominantActivity]
  exact ⟨trivial, trivial, trivial, trivial, trivial⟩

/-- Witness for `tracer_unknown_stage`: `galvanizing` is not a textile
stage. -/
theorem tracer_unknown_stage_witness :
    (traceImpactOrigin c9Project c9Input "climate_change" "galvanizing").summary.dominant_activity
      = "N/A" :=
  (tracer_unknown_stage c9Project c9Input "climate_change" "galvanizing"
    (by decide)).2.2.2.2

end LCA
